import Mathlib

/-!
Shallow embedding of the fish-inventory accounting engine
(src/core/services: batches.py, sales.py, inventory.py, closures.py and
src/core/utils.py), over a relational store modelled as lists of typed rows.

Python ints are modelled as `ℤ`, SQLite REAL columns as `ℚ` (exact
arithmetic stands in for IEEE doubles), TEXT as `String`, NULLable columns
as `Option`.  Every service function threads the store explicitly; the
sqlite helper `x` in core/db.py commits after every single INSERT, so an
exception raised later in a service function leaves the earlier inserts in
place — the embedding mirrors that by returning the store it has built up
together with an `Except` value.
-/

namespace Fish

/- The basic `Rat` operations are shipped `@[irreducible]`; making them
semireducible again lets `decide` evaluate concrete store runs. -/
attribute [local semireducible] Rat.add Rat.sub Rat.mul Rat.inv

/-- `1e-9`, the per-slice skip threshold in the wholesale FIFO loop. -/
def eps9 : ℚ := 1/1000000000

/-- `1e-6`, the shortfall / depletion tolerance. -/
def eps6 : ℚ := 1/1000000

/-- core/utils.py `safe_div`: `n / d if d else 0.0`. -/
def safe_div (n d : ℚ) : ℚ := if d = 0 then 0 else n / d

/-- Python builtin `round` on a real value: round half to even. -/
def pyRound (x : ℚ) : ℤ :=
  let f := ⌊x⌋
  let frac := x - (f : ℚ)
  if frac < 1/2 then f
  else if 1/2 < frac then f + 1
  else if f % 2 = 0 then f else f + 1

/-- Python `round(x, 2)` (two decimal places, half to even). -/
def pyRound2 (x : ℚ) : ℚ := (pyRound (x * 100) : ℚ) / 100

/-- Python `str.upper()` restricted to its ASCII action (all strings the
services feed it are ASCII). -/
def pyUpper (s : String) : String := String.mk (s.data.map Char.toUpper)

/-- Python `str.strip()` (whitespace at both ends). -/
def pyStrip (s : String) : String :=
  String.mk (((s.data.dropWhile Char.isWhitespace).reverse.dropWhile Char.isWhitespace).reverse)

/-- Python `str.split()` with no separator: split on whitespace runs,
dropping empty pieces.  Accumulator holds the current word reversed. -/
def splitWsAux : List Char → List Char → List (List Char)
  | [], acc => if acc.isEmpty then [] else [acc.reverse]
  | c :: cs, acc =>
      if c.isWhitespace then
        if acc.isEmpty then splitWsAux cs [] else acc.reverse :: splitWsAux cs []
      else splitWsAux cs (c :: acc)

def pySplitWs (s : String) : List String :=
  (splitWsAux s.data []).map String.mk

/-- SQLite `LIKE` matching (default, ASCII-case-insensitive) for the
pattern shape stem-then-percent used by `_generate_batch_code` (the stem
itself never contains `%`): each stem character matches one value
character — `_` matches any single character, anything else matches up to
ASCII case — and the trailing `%` swallows the rest of the value. -/
def likeStem : List Char → List Char → Bool
  | [], _ => true
  | _ :: _, [] => false
  | p :: ps, c :: cs => (p == '_' || c.toUpper == p.toUpper) && likeStem ps cs

/-- `value LIKE (stem ++ percent)` for a string column. -/
def sqlLikeStem (v stem : String) : Bool := likeStem stem.data v.data

/-- Python format `f"{n:03d}"` for a non-negative count. -/
def pad3 (n : ℕ) : String :=
  let s := toString n
  String.mk (List.replicate (3 - s.length) '0') ++ s

instance {ε α : Type} [DecidableEq ε] [DecidableEq α] : DecidableEq (Except ε α) :=
  fun a b =>
    match a, b with
    | .ok x, .ok y => if h : x = y then isTrue (by rw [h]) else isFalse (by simp [h])
    | .error x, .error y => if h : x = y then isTrue (by rw [h]) else isFalse (by simp [h])
    | .ok _, .error _ => isFalse (by simp)
    | .error _, .ok _ => isFalse (by simp)

/-! ## Data model (core/schema.py) -/

inductive BatchStatus
  | OPEN
  | CLOSED
deriving DecidableEq, Repr

inductive SaleMode
  | RETAIL_PCS
  | WHOLESALE_KG
deriving DecidableEq, Repr

structure BranchRow where
  id : ℤ
  name : String
deriving DecidableEq, Repr

structure SizeRow where
  id : ℤ
  code : String
deriving DecidableEq, Repr

structure BatchRow where
  id : ℤ
  batch_code : String
  receipt_date : String
  branch_id : ℤ
  supplier : Option String
  notes : Option String
  buy_price_per_kg : ℚ
  initial_pieces : ℤ
  initial_kg : ℚ
  batch_avg_kg_per_piece : ℚ
  status : BatchStatus
  closed_at : Option String
deriving DecidableEq, Repr

structure BatchLineRow where
  batch_id : ℤ
  size_id : ℤ
  pieces : ℤ
  kg : ℚ
  avg_kg_per_piece : ℚ
deriving DecidableEq, Repr

structure SaleRow where
  id : ℤ
  sale_ts : String
  branch_id : ℤ
  mode : SaleMode
  customer : Option String
  batch_id : ℤ
  size_id : Option ℤ
  pcs_sold : ℤ
  kg_sold : ℚ
  unit_price : Option ℚ
  price_basis : String
  total_price : Option ℚ
  pcs_suggested : Option ℤ
  variance_flag : ℤ
deriving DecidableEq, Repr

structure AdjustmentRow where
  ts : String
  batch_id : ℤ
  reason : String
  pcs_delta : ℤ
  kg_delta : ℚ
  notes : String
deriving DecidableEq, Repr

structure ClosureRow where
  batch_id : ℤ
  closed_ts : String
  loss_kg : ℚ
  loss_pct : ℚ
  notes : String
deriving DecidableEq, Repr

/-- The relational store.  `next_batch_id` / `next_sale_id` model the
AUTOINCREMENT primary keys; `now` models the ambient `iso_now()` clock. -/
structure Store where
  branches : List BranchRow
  sizes : List SizeRow
  batches : List BatchRow
  batch_lines : List BatchLineRow
  sales : List SaleRow
  adjustments : List AdjustmentRow
  closures : List ClosureRow
  next_batch_id : ℤ
  next_sale_id : ℤ
  now : String
deriving DecidableEq, Repr

structure OnHand where
  pcs : ℤ
  kg : ℚ
deriving DecidableEq, Repr

/-! ## On-hand calculator (core/services/inventory.py) -/

/-- `batch_on_hand`: batch-level on-hand from `batches.initial_*`, all
sales against the batch, and all batch-level adjustments.  A missing
batch id yields `{0, 0.0}`. -/
def batch_on_hand (s : Store) (batch_id : ℤ) : OnHand :=
  match s.batches.find? (fun b => b.id == batch_id) with
  | none => ⟨0, 0⟩
  | some b =>
      let sold := s.sales.filter (fun r => r.batch_id == batch_id)
      let adj := s.adjustments.filter (fun r => r.batch_id == batch_id)
      { pcs := b.initial_pieces - (sold.map (·.pcs_sold)).sum + (adj.map (·.pcs_delta)).sum
        kg := b.initial_kg - (sold.map (·.kg_sold)).sum + (adj.map (·.kg_delta)).sum }

/-- `batch_line_on_hand` (also `_batch_line_on_hand` in sales.py):
size-level on-hand inside a batch; `batch_lines` is the initial stock,
sales for the same (batch, size) are subtracted; adjustments are
batch-level only and are deliberately not applied here. -/
def batch_line_on_hand (s : Store) (batch_id size_id : ℤ) : OnHand :=
  match s.batch_lines.find? (fun l => l.batch_id == batch_id && l.size_id == size_id) with
  | none => ⟨0, 0⟩
  | some bl =>
      let sold := s.sales.filter (fun r => r.batch_id == batch_id && r.size_id == some size_id)
      ⟨bl.pieces - (sold.map (·.pcs_sold)).sum, bl.kg - (sold.map (·.kg_sold)).sum⟩

/-- Byte-wise lexicographic comparison of TEXT values (SQLite BINARY
collation, which orders ISO dates chronologically). -/
def strLtB : List Char → List Char → Bool
  | [], [] => false
  | [], _ :: _ => true
  | _ :: _, [] => false
  | c :: cs, d :: ds =>
      if c.toNat < d.toNat then true
      else if c.toNat = d.toNat then strLtB cs ds
      else false

def strLt (a b : String) : Bool := strLtB a.data b.data

lemma strLtB_trans : ∀ {a b c : List Char},
    strLtB a b = true → strLtB b c = true → strLtB a c = true := by
  intro a
  induction a with
  | nil =>
      intro b c hab hbc
      cases b with
      | nil => exact hbc
      | cons y ys => cases c with
        | nil => simp [strLtB] at hbc
        | cons z zs => rfl
  | cons x xs ih =>
      intro b c hab hbc
      cases b with
      | nil => simp [strLtB] at hab
      | cons y ys =>
        cases c with
        | nil => simp [strLtB] at hbc
        | cons z zs =>
          simp only [strLtB] at hab hbc ⊢
          split at hab
          · rename_i hxy
            split at hbc
            · rename_i hyz
              simp [Nat.lt_trans hxy hyz]
            · split at hbc
              · rename_i hyz
                simp [hyz ▸ hxy]
              · exact absurd hbc (by simp)
          · split at hab
            · rename_i hxy
              split at hbc
              · rename_i hyz
                simp [hxy ▸ hyz]
              · split at hbc
                · rename_i hyz
                  simp only [hxy.trans hyz, if_pos rfl]
                  split
                  · rfl
                  · exact ih hab hbc
                · exact absurd hbc (by simp)
            · exact absurd hab (by simp)

lemma strLtB_total : ∀ a b : List Char,
    strLtB a b = true ∨ a = b ∨ strLtB b a = true := by
  intro a
  induction a with
  | nil =>
      intro b
      cases b with
      | nil => exact Or.inr (Or.inl rfl)
      | cons y ys => exact Or.inl rfl
  | cons x xs ih =>
      intro b
      cases b with
      | nil => exact Or.inr (Or.inr rfl)
      | cons y ys =>
        rcases Nat.lt_trichotomy x.toNat y.toNat with h | h | h
        · exact Or.inl (by simp [strLtB, h])
        · have hxy : x = y := Char.ext (UInt32.toNat.inj h)
          rcases ih ys with h2 | h2 | h2
          · exact Or.inl (by simp [strLtB, h, h2])
          · exact Or.inr (Or.inl (by rw [hxy, h2]))
          · exact Or.inr (Or.inr (by simp [strLtB, h.symm, h2]))
        · exact Or.inr (Or.inr (by simp [strLtB, h]))

lemma strLt_trans {a b c : String} (h1 : strLt a b = true) (h2 : strLt b c = true) :
    strLt a c = true := strLtB_trans h1 h2

lemma strLt_total (a b : String) : strLt a b = true ∨ a = b ∨ strLt b a = true := by
  rcases strLtB_total a.data b.data with h | h | h
  · exact Or.inl h
  · refine Or.inr (Or.inl ?_)
    cases a; cases b
    exact congrArg String.mk (by simpa using h)
  · exact Or.inr (Or.inr h)

/-- SQL `ORDER BY b.receipt_date ASC, b.id ASC` (receipt_date is an ISO
date TEXT column, compared byte-wise). -/
def fifoLE (b1 b2 : BatchRow) : Prop :=
  strLt b1.receipt_date b2.receipt_date = true ∨
    (b1.receipt_date = b2.receipt_date ∧ b1.id ≤ b2.id)

instance : DecidableRel fifoLE := fun _ _ =>
  inferInstanceAs (Decidable (_ ∨ _))

instance : IsTotal BatchRow fifoLE where
  total b1 b2 := by
    rcases strLt_total b1.receipt_date b2.receipt_date with h | h | h
    · exact Or.inl (Or.inl h)
    · rcases le_total b1.id b2.id with h2 | h2
      · exact Or.inl (Or.inr ⟨h, h2⟩)
      · exact Or.inr (Or.inr ⟨h.symm, h2⟩)
    · exact Or.inr (Or.inl h)

instance : IsTrans BatchRow fifoLE where
  trans b1 b2 b3 h12 h23 := by
    rcases h12 with h12 | ⟨e12, i12⟩
    · rcases h23 with h23 | ⟨e23, _⟩
      · exact Or.inl (strLt_trans h12 h23)
      · exact Or.inl (e23 ▸ h12)
    · rcases h23 with h23 | ⟨e23, i23⟩
      · exact Or.inl (e12 ▸ h23)
      · exact Or.inr ⟨e12.trans e23, i12.trans i23⟩

/-- One row of the FIFO candidate list (`fifo_batches_for_size` in
inventory.py; sales.py `_fifo_batches_for_size` is the same query and
filter with a subset of the output columns). -/
structure FifoCandidate where
  batch_id : ℤ
  batch_code : String
  receipt_date : String
  branch_id : ℤ
  buy_price_per_kg : ℚ
  avg_kg_per_piece : ℚ
  pcs_on_hand : ℤ
  kg_on_hand : ℚ
deriving DecidableEq, Repr

/-- The SQL join `JOIN batch_lines bl ON bl.batch_id = b.id AND bl.size_id=?`
viewed as a row-existence test (the data model keeps one line per
(batch, size)). -/
def hasLineForSize (s : Store) (batch_id size_id : ℤ) : Bool :=
  s.batch_lines.any (fun l => l.batch_id == batch_id && l.size_id == size_id)

def candOf (s : Store) (size_id : ℤ) (b : BatchRow) : FifoCandidate :=
  let onhand := batch_line_on_hand s b.id size_id
  { batch_id := b.id
    batch_code := b.batch_code
    receipt_date := b.receipt_date
    branch_id := b.branch_id
    buy_price_per_kg := b.buy_price_per_kg
    avg_kg_per_piece := b.batch_avg_kg_per_piece
    pcs_on_hand := onhand.pcs
    kg_on_hand := onhand.kg }

/-- `fifo_batches_for_size`: OPEN batches of the branch carrying the size,
oldest receipt first (ties by ascending id), annotated with size-level
on-hand; batches whose size-level on-hand pieces or kg are not strictly
positive are dropped. -/
def fifo_batches_for_size (s : Store) (branch_id size_id : ℤ) : List FifoCandidate :=
  let rows := (List.insertionSort fifoLE s.batches).filter
      (fun b => b.status == .OPEN && b.branch_id == branch_id && hasLineForSize s b.id size_id)
  rows.filterMap (fun b =>
    let onhand := batch_line_on_hand s b.id size_id
    if 0 < onhand.pcs ∧ 0 < onhand.kg then some (candOf s size_id b) else none)

/-! ## Sale recorder (core/services/sales.py) -/

structure SaleResult where
  sale_id : ℤ
  pcs_sold : ℤ
  kg_sold : ℚ
  variance_flag : ℤ
  pcs_suggested : Option ℤ
deriving DecidableEq, Repr

/-- `_normalize_customer`. -/
def normalize_customer (customer : Option String) : Option String :=
  match customer with
  | none => none
  | some c => let t := pyStrip c; if t = "" then none else some t

/-- `_get_batch_avg` (the column is NOT NULL in the schema, so the
`avg is None` branch cannot fire and is not modelled). -/
def get_batch_avg (s : Store) (batch_id : ℤ) : Except String ℚ :=
  match s.batches.find? (fun b => b.id == batch_id) with
  | none => .error "Batch not found."
  | some b =>
      if b.batch_avg_kg_per_piece ≤ 0 then .error "Batch average kg/pc must be > 0."
      else .ok b.batch_avg_kg_per_piece

/-- `_normalize_price_basis` (empty string is falsy in Python). -/
def normalize_price_basis (price_basis : String) : Except String String :=
  if price_basis = "" then .ok "PER_KG"
  else
    let pb := pyUpper (pyStrip price_basis)
    if pb = "PER_KG" ∨ pb = "PER_PIECE" then .ok pb
    else .error "Invalid price_basis. Use PER_KG or PER_PIECE."

/-- `_compute_total_price` (the unit price is already numeric in the
typed model, so the float-conversion failure branch cannot fire). -/
def compute_total_price (unit_price : Option ℚ) (price_basis : String)
    (kg_sold : ℚ) (pcs_sold : ℤ) : Option ℚ :=
  match unit_price with
  | none => none
  | some up =>
      if up ≤ 0 then none
      else if price_basis = "PER_PIECE" then some (pyRound2 ((pcs_sold : ℚ) * up))
      else some (pyRound2 (kg_sold * up))

/-- `_normalize_total_price`. -/
def normalize_total_price (total_price : Option ℚ) : Option ℚ :=
  match total_price with
  | none => none
  | some tp => if tp ≤ 0 then none else some tp

/-- `create_retail_sale`: single-batch retail writer.  Posts one
RETAIL_PCS row with `kg_sold = pcs_sold * batch_avg_kg_per_piece`,
`pcs_suggested = NULL`, `variance_flag = 0`. -/
def create_retail_sale (s : Store) (branch_id batch_id : ℤ) (size_id : Option ℤ)
    (customer : Option String) (pcs_sold : ℤ) (unit_price : Option ℚ)
    (price_basis : String) (total_price : Option ℚ) :
    Store × Except String SaleResult :=
  if pcs_sold ≤ 0 then (s, .error "Pieces sold must be > 0.")
  else
    match normalize_price_basis price_basis with
    | .error e => (s, .error e)
    | .ok pb =>
      match get_batch_avg s batch_id with
      | .error e => (s, .error e)
      | .ok avg =>
        let kg_sold : ℚ := (pcs_sold : ℚ) * avg
        let tp :=
          match normalize_total_price total_price with
          | some t => some t
          | none => compute_total_price unit_price pb kg_sold pcs_sold
        let sid := s.next_sale_id
        let row : SaleRow :=
          { id := sid, sale_ts := s.now, branch_id := branch_id, mode := .RETAIL_PCS
            customer := normalize_customer customer, batch_id := batch_id, size_id := size_id
            pcs_sold := pcs_sold, kg_sold := kg_sold, unit_price := unit_price
            price_basis := pb, total_price := tp, pcs_suggested := none, variance_flag := 0 }
        ({ s with sales := s.sales ++ [row], next_sale_id := sid + 1 },
         .ok { sale_id := sid, pcs_sold := pcs_sold, kg_sold := kg_sold
               variance_flag := 0, pcs_suggested := none })

/-- `create_wholesale_sale`: single-batch wholesale writer.  Posts one
WHOLESALE_KG row with `pcs_suggested = round(kg_sold / avg)` and
`variance_flag = 1` iff the counted pieces deviate beyond the tolerance
(negative tolerance is clamped to 0). -/
def create_wholesale_sale (s : Store) (branch_id batch_id : ℤ) (size_id : Option ℤ)
    (customer : Option String) (kg_sold : ℚ) (pcs_counted : ℤ) (tolerance_pcs : ℤ)
    (unit_price : Option ℚ) (price_basis : String) (total_price : Option ℚ) :
    Store × Except String SaleResult :=
  if kg_sold ≤ 0 then (s, .error "Kg sold must be > 0.")
  else if pcs_counted ≤ 0 then (s, .error "Counted pieces must be > 0.")
  else
    let tol := max 0 tolerance_pcs
    match normalize_price_basis price_basis with
    | .error e => (s, .error e)
    | .ok pb =>
      match get_batch_avg s batch_id with
      | .error e => (s, .error e)
      | .ok avg =>
        let pcs_suggested := pyRound (safe_div kg_sold avg)
        let variance_flag : ℤ := if tol < |pcs_counted - pcs_suggested| then 1 else 0
        let tp :=
          match normalize_total_price total_price with
          | some t => some t
          | none => compute_total_price unit_price pb kg_sold pcs_counted
        let sid := s.next_sale_id
        let row : SaleRow :=
          { id := sid, sale_ts := s.now, branch_id := branch_id, mode := .WHOLESALE_KG
            customer := normalize_customer customer, batch_id := batch_id, size_id := size_id
            pcs_sold := pcs_counted, kg_sold := kg_sold, unit_price := unit_price
            price_basis := pb, total_price := tp, pcs_suggested := some pcs_suggested
            variance_flag := variance_flag }
        ({ s with sales := s.sales ++ [row], next_sale_id := sid + 1 },
         .ok { sale_id := sid, pcs_sold := pcs_counted, kg_sold := kg_sold
               variance_flag := variance_flag, pcs_suggested := some pcs_suggested })

/-- Loop body of `create_retail_sale_fifo`: iterate candidates oldest
first, take `min(remaining, pcs_on_hand)` from each, post one retail sale
per slice (each INSERT is committed on its own by `x` in core/db.py), and
after the loop fail when pieces remain uncovered. -/
def retailFifoLoop (branch_id size_id : ℤ) (customer : Option String)
    (unit_price : Option ℚ) (pb : String) :
    Store → List FifoCandidate → ℤ → List SaleResult →
    Store × Except String (List SaleResult)
  | s, [], remaining, acc =>
      if 0 < remaining then
        (s, .error "Not enough pieces on hand across FIFO batches for this size.")
      else (s, .ok acc)
  | s, b :: rest, remaining, acc =>
      if remaining ≤ 0 then (s, .ok acc)
      else
        let take_pcs := min remaining b.pcs_on_hand
        if take_pcs ≤ 0 then
          retailFifoLoop branch_id size_id customer unit_price pb s rest remaining acc
        else
          let kg : ℚ := (take_pcs : ℚ) * b.avg_kg_per_piece
          let total_price := compute_total_price unit_price pb kg take_pcs
          match create_retail_sale s branch_id b.batch_id (some size_id) customer
              take_pcs unit_price pb total_price with
          | (s1, .error e) => (s1, .error e)
          | (s1, .ok res) =>
              retailFifoLoop branch_id size_id customer unit_price pb s1 rest
                (remaining - take_pcs) (acc ++ [res])

/-- `create_retail_sale_fifo`. -/
def create_retail_sale_fifo (s : Store) (branch_id size_id : ℤ)
    (customer : Option String) (pcs_sold : ℤ) (unit_price : Option ℚ)
    (price_basis : String) : Store × Except String (List SaleResult) :=
  if pcs_sold ≤ 0 then (s, .error "Pieces sold must be > 0.")
  else
    match normalize_price_basis price_basis with
    | .error e => (s, .error e)
    | .ok pb =>
      let fifo := fifo_batches_for_size s branch_id size_id
      if fifo.isEmpty then (s, .error "No stock available for this size (FIFO).")
      else retailFifoLoop branch_id size_id customer unit_price pb s fifo pcs_sold []

/-- Kg-allocation loop of `create_wholesale_sale_fifo`: oldest first,
each candidate contributes `min(remaining_kg, kg_on_hand)`; contributions
at or below 1e-9 are skipped and the loop stops once the remainder is at
or below 1e-9. -/
def wholesaleAllocLoop : List FifoCandidate → ℚ → List (FifoCandidate × ℚ)
  | [], _ => []
  | b :: rest, remaining =>
      if remaining ≤ eps9 then []
      else
        let take_kg := min remaining b.kg_on_hand
        if take_kg ≤ eps9 then wholesaleAllocLoop rest remaining
        else (b, take_kg) :: wholesaleAllocLoop rest (remaining - take_kg)

/-- Posting loop of `create_wholesale_sale_fifo`: every slice but the
last gets `round(take_kg / kg_remaining_total * pcs_remaining)` pieces
clamped into `[1, pcs_remaining - slices_left_after_it]`; the last slice
gets the exact remainder.  Each slice carries its own suggested count and
variance flag. -/
def wholesalePostLoop (branch_id size_id : ℤ) (customer : Option String)
    (unit_price : Option ℚ) (pb : String) (tol : ℤ) :
    Store → List (FifoCandidate × ℚ) → ℤ → ℚ → List SaleResult →
    Store × List SaleResult
  | s, [], _, _, acc => (s, acc)
  | s, (b, take_kg) :: rest, pcs_remaining, kg_remaining_total, acc =>
      let pcs_suggested := pyRound (safe_div take_kg b.avg_kg_per_piece)
      let pcs_alloc :=
        if rest.isEmpty then pcs_remaining
        else
          let min_needed_for_rest : ℤ := rest.length
          let raw : ℚ :=
            if 0 < kg_remaining_total then take_kg / kg_remaining_total * (pcs_remaining : ℚ)
            else 1
          min (max 1 (pyRound raw)) (pcs_remaining - min_needed_for_rest)
      let variance_flag : ℤ := if tol < |pcs_alloc - pcs_suggested| then 1 else 0
      let total_price := compute_total_price unit_price pb take_kg pcs_alloc
      let sid := s.next_sale_id
      let row : SaleRow :=
        { id := sid, sale_ts := s.now, branch_id := branch_id, mode := .WHOLESALE_KG
          customer := normalize_customer customer, batch_id := b.batch_id
          size_id := some size_id, pcs_sold := pcs_alloc, kg_sold := take_kg
          unit_price := unit_price, price_basis := pb, total_price := total_price
          pcs_suggested := some pcs_suggested, variance_flag := variance_flag }
      wholesalePostLoop branch_id size_id customer unit_price pb tol
        { s with sales := s.sales ++ [row], next_sale_id := sid + 1 }
        rest (pcs_remaining - pcs_alloc) (kg_remaining_total - take_kg)
        (acc ++ [{ sale_id := sid, pcs_sold := pcs_alloc, kg_sold := take_kg
                   variance_flag := variance_flag, pcs_suggested := some pcs_suggested }])

/-- `create_wholesale_sale_fifo`.  The running `remaining_kg` of the
Python loop equals `kg_sold` minus the sum of the takes, and
`total_alloc_kg = sum(...) or 0.0` is just that sum in exact arithmetic. -/
def create_wholesale_sale_fifo (s : Store) (branch_id size_id : ℤ)
    (customer : Option String) (kg_sold : ℚ) (pcs_counted : ℤ) (tolerance_pcs : ℤ)
    (unit_price : Option ℚ) (price_basis : String) :
    Store × Except String (List SaleResult) :=
  if kg_sold ≤ 0 then (s, .error "Kg sold must be > 0.")
  else if pcs_counted ≤ 0 then (s, .error "Counted pieces must be > 0.")
  else
    let tol := max 0 tolerance_pcs
    match normalize_price_basis price_basis with
    | .error e => (s, .error e)
    | .ok pb =>
      let fifo := fifo_batches_for_size s branch_id size_id
      if fifo.isEmpty then (s, .error "No stock available for this size (FIFO).")
      else
        let allocations := wholesaleAllocLoop fifo kg_sold
        let total_alloc_kg := (allocations.map (fun a => a.2)).sum
        if eps6 < kg_sold - total_alloc_kg then
          (s, .error "Not enough kg on hand across FIFO batches for this size.")
        else if pcs_counted < (allocations.length : ℤ) then
          (s, .error "This sale spans FIFO batches, but counted pieces is fewer. Re-check size selection, stock, or count again.")
        else
          let (s1, results) := wholesalePostLoop branch_id size_id customer unit_price
              pb tol s allocations pcs_counted total_alloc_kg []
          (s1, .ok results)

/-! ## Closure engine (core/services/closures.py) -/

structure ClosureResult where
  loss_kg : ℚ
  loss_pct : ℚ
deriving DecidableEq, Repr

/-- `close_batch`: only an OPEN batch whose on-hand is (or is
auto-adjusted to) exactly zero may close; `loss_kg = initial_kg -
total_kg_sold`, `loss_pct = safe_div(loss_kg, initial_kg) * 100`. -/
def close_batch (s : Store) (batch_id : ℤ) (notes : String)
    (auto_zero_tolerance_kg : ℚ) : Store × Except String ClosureResult :=
  match s.batches.find? (fun b => b.id == batch_id) with
  | none => (s, .error "Batch not found.")
  | some b =>
    if b.status = .CLOSED then (s, .error "Batch already closed.")
    else
      let onhand := batch_on_hand s batch_id
      let s1 :=
        if |onhand.kg| ≤ auto_zero_tolerance_kg ∧ onhand.pcs = 0 ∧ onhand.kg ≠ 0 then
          { s with adjustments := s.adjustments ++
              [{ ts := s.now, batch_id := batch_id, reason := "CLOSE_TO_ZERO"
                 pcs_delta := 0, kg_delta := -onhand.kg
                 notes := "Auto-adjust to zero for closure within tolerance" }] }
        else s
      let oh1 := batch_on_hand s1 batch_id
      if oh1.pcs ≠ 0 ∨ eps6 < |oh1.kg| then
        (s1, .error "Batch is not depleted. Bring pieces and kg to zero (sales or adjustment) before closing.")
      else
        let kg_sold := ((s1.sales.filter (fun r => r.batch_id == batch_id)).map (·.kg_sold)).sum
        let loss_kg := b.initial_kg - kg_sold
        let loss_pct := safe_div loss_kg b.initial_kg * 100
        let s2 := { s1 with closures := s1.closures ++
            [({ batch_id := batch_id, closed_ts := s.now, loss_kg := loss_kg
                loss_pct := loss_pct, notes := notes } : ClosureRow)] }
        let s3 := { s2 with batches := s2.batches.map (fun bb : BatchRow =>
            if bb.id == batch_id then
              ({ bb with status := .CLOSED, closed_at := some s.now } : BatchRow)
            else bb) }
        (s3, .ok { loss_kg := loss_kg, loss_pct := loss_pct })

/-! ## Batch ledger (core/services/batches.py) -/

structure BatchLineInput where
  size_id : ℤ
  pieces : ℤ
  kg : ℚ
  buy_price_per_kg : Option ℚ := none
deriving DecidableEq, Repr

/-- `_normalize_branch_code`: first 3 letters of each whitespace word of
the upper-cased name, joined and capped at 8 characters; a single word
takes its first 6 characters; an empty name yields "BR". -/
def normalize_branch_code (branch_name : String) : String :=
  let parts := (pySplitWs (pyUpper (pyStrip branch_name))).filter (fun p => p ≠ "")
  match parts with
  | [] => "BR"
  | [p] => p.take 6
  | ps => (String.join (ps.map (fun p => p.take 3))).take 8

def get_branch_name (s : Store) (branch_id : ℤ) : Except String String :=
  match s.branches.find? (fun b => b.id == branch_id) with
  | none => .error "Branch not found."
  | some b => .ok b.name

/-- `_get_size_code`: the size code, stripped and upper-cased. -/
def get_size_code (s : Store) (size_id : ℤ) : Except String String :=
  match s.sizes.find? (fun z => z.id == size_id) with
  | none => .error "Size not found."
  | some z => .ok (pyUpper (pyStrip z.code))

/-- `{BRANCHCODE}-{SIZE}-{YYYYMMDD}-` (the date drops its dashes). -/
def batchCodeStem (branch_name size_code receipt_date : String) : String :=
  let ymd := String.mk (receipt_date.data.filter (fun c => c != '-'))
  normalize_branch_code branch_name ++ "-" ++ size_code ++ "-" ++ ymd ++ "-"

/-- `_generate_batch_code`: the stem followed by a 3-digit sequence, one
more than the number of stored batch codes matching the SQL pattern
`stem || '%'` under LIKE semantics. -/
def generate_batch_code (s : Store) (branch_id size_id : ℤ)
    (receipt_date : String) : Except String String :=
  match get_branch_name s branch_id with
  | .error e => .error e
  | .ok branch_name =>
    match get_size_code s size_id with
    | .error e => .error e
    | .ok size_code =>
      let stem := batchCodeStem branch_name size_code receipt_date
      let n := (s.batches.filter (fun b => sqlLikeStem b.batch_code stem)).length
      .ok (stem ++ pad3 (n + 1))

/-- `create_batch`: one batch row (average = total kg / total pieces) plus
one `batch_lines` row per input line. -/
def create_batch (s : Store) (batch_code receipt_date : String) (branch_id : ℤ)
    (supplier notes : Option String) (buy_price_per_kg : ℚ)
    (lines : List BatchLineInput) : Store × Except String ℤ :=
  if batch_code = "" then (s, .error "Batch code is required.")
  else if lines.isEmpty then (s, .error "At least one size line is required.")
  else if buy_price_per_kg ≤ 0 then (s, .error "Buy price per kg must be > 0.")
  else
    let total_pcs : ℤ := (lines.map (·.pieces)).sum
    let total_kg : ℚ := (lines.map (·.kg)).sum
    if total_pcs ≤ 0 then (s, .error "Total pieces must be > 0.")
    else if total_kg ≤ 0 then (s, .error "Total kg must be > 0.")
    else
      let batch_avg := safe_div total_kg (total_pcs : ℚ)
      let bid := s.next_batch_id
      let s1 := { s with
        batches := s.batches ++
          [{ id := bid, batch_code := batch_code, receipt_date := receipt_date
             branch_id := branch_id, supplier := supplier, notes := notes
             buy_price_per_kg := buy_price_per_kg, initial_pieces := total_pcs
             initial_kg := total_kg, batch_avg_kg_per_piece := batch_avg
             status := .OPEN, closed_at := none }]
        batch_lines := s.batch_lines ++ lines.map (fun l =>
          { batch_id := bid, size_id := l.size_id, pieces := l.pieces, kg := l.kg
            avg_kg_per_piece := safe_div l.kg (l.pieces : ℚ) })
        next_batch_id := bid + 1 }
      (s1, .ok bid)

/-- Per-line loop of `create_batches_from_purchase`: zero-quantity lines
are skipped, a missing or non-positive per-line buy price aborts (earlier
batches stay committed), each surviving line becomes its own batch with a
generated code. -/
def purchaseLoop (receipt_date : String) (branch_id : ℤ)
    (supplier notes : Option String) :
    Store → List BatchLineInput → List ℤ → Store × Except String (List ℤ)
  | s, [], acc => (s, .ok acc)
  | s, l :: rest, acc =>
      if l.pieces ≤ 0 ∨ l.kg ≤ 0 then
        purchaseLoop receipt_date branch_id supplier notes s rest acc
      else
        match l.buy_price_per_kg with
        | none => (s, .error "Buy price per kg is required for each size line.")
        | some bp =>
          if bp ≤ 0 then (s, .error "Buy price per kg must be > 0 for each size line.")
          else
            match generate_batch_code s branch_id l.size_id receipt_date with
            | .error e => (s, .error e)
            | .ok batch_code =>
              match create_batch s batch_code receipt_date branch_id supplier notes bp
                  [{ size_id := l.size_id, pieces := l.pieces, kg := l.kg }] with
              | (s1, .error e) => (s1, .error e)
              | (s1, .ok bid) =>
                  purchaseLoop receipt_date branch_id supplier notes s1 rest (acc ++ [bid])

/-- `create_batches_from_purchase`. -/
def create_batches_from_purchase (s : Store) (receipt_date : String)
    (branch_id : ℤ) (supplier notes : Option String)
    (lines : List BatchLineInput) : Store × Except String (List ℤ) :=
  if lines.isEmpty then (s, .error "At least one size line is required.")
  else
    match purchaseLoop receipt_date branch_id supplier notes s lines [] with
    | (s1, .error e) => (s1, .error e)
    | (s1, .ok ids) =>
        if ids.isEmpty then
          (s1, .error "No valid lines found. Enter pieces + kg > 0 for at least one size.")
        else (s1, .ok ids)

/-! ## Spec-side reference functions (used to state the claims) -/

/-- The fields of a posted sale row the FIFO claims talk about:
(batch, pieces, kg). -/
def saleKey (r : SaleRow) : ℤ × ℤ × ℚ := (r.batch_id, r.pcs_sold, r.kg_sold)

/-- The slice list the spec describes for the retail FIFO path: walk the
candidates oldest first, take `min(remaining, pcs_on_hand)` pieces and
`pieces_taken * that_batch_avg` kg from each, stop at zero remaining. -/
def retailTakes : List FifoCandidate → ℤ → List (ℤ × ℤ × ℚ)
  | [], _ => []
  | b :: rest, remaining =>
      if remaining ≤ 0 then []
      else
        let t := min remaining b.pcs_on_hand
        (b.batch_id, t, (t : ℚ) * b.avg_kg_per_piece) :: retailTakes rest (remaining - t)

/-- The per-slice counted-piece split the spec describes for the wholesale
FIFO path: every slice but the last gets its kg share of the still
unallocated pieces, rounded, clamped into `[1, remaining - slices_after]`;
the last slice gets the exact remainder. -/
def wholesalePieceAlloc : List ℚ → ℤ → ℚ → List ℤ
  | [], _, _ => []
  | k :: rest, pcsRem, kgRem =>
      if rest.isEmpty then [pcsRem]
      else
        let raw : ℚ := if 0 < kgRem then k / kgRem * (pcsRem : ℚ) else 1
        let a := min (max 1 (pyRound raw)) (pcsRem - rest.length)
        a :: wholesalePieceAlloc rest (pcsRem - a) (kgRem - k)

/-- The claimed candidate order: receipt date ascending, ties by ascending
batch id. -/
def candLE (c1 c2 : FifoCandidate) : Prop :=
  strLt c1.receipt_date c2.receipt_date = true ∨
    (c1.receipt_date = c2.receipt_date ∧ c1.batch_id ≤ c2.batch_id)

/-! ## Concrete stores for witnesses and counterexamples -/

/-- One OPEN batch with 5 pieces / 10 kg on hand of size 1. -/
def c1Store : Store :=
  { branches := [⟨1, "B"⟩], sizes := [⟨1, "S"⟩]
    batches := [{ id := 1, batch_code := "B1", receipt_date := "2026-01-01", branch_id := 1
                  supplier := none, notes := none, buy_price_per_kg := 3
                  initial_pieces := 5, initial_kg := 10, batch_avg_kg_per_piece := 2
                  status := .OPEN, closed_at := none }]
    batch_lines := [⟨1, 1, 5, 10, 2⟩]
    sales := [], adjustments := [], closures := []
    next_batch_id := 2, next_sale_id := 1, now := "T" }

/-- Branch "Nairobi East" and size code "SIZE_2", no batches yet. -/
def c2Store : Store :=
  { branches := [⟨1, "Nairobi East"⟩], sizes := [⟨1, "SIZE_2"⟩]
    batches := [], batch_lines := [], sales := [], adjustments := [], closures := []
    next_batch_id := 1, next_sale_id := 1, now := "T" }

/-- Three OPEN batches of one size, oldest first, with on-hand pieces
[10, 5, 20] and kg [20, 10, 40] (avg 2 kg/pc each). -/
def c3Store : Store :=
  { branches := [⟨1, "B"⟩], sizes := [⟨1, "S"⟩]
    batches :=
      [{ id := 1, batch_code := "B1", receipt_date := "2026-01-01", branch_id := 1
         supplier := none, notes := none, buy_price_per_kg := 3
         initial_pieces := 10, initial_kg := 20, batch_avg_kg_per_piece := 2
         status := .OPEN, closed_at := none },
       { id := 2, batch_code := "B2", receipt_date := "2026-01-02", branch_id := 1
         supplier := none, notes := none, buy_price_per_kg := 3
         initial_pieces := 5, initial_kg := 10, batch_avg_kg_per_piece := 2
         status := .OPEN, closed_at := none },
       { id := 3, batch_code := "B3", receipt_date := "2026-01-03", branch_id := 1
         supplier := none, notes := none, buy_price_per_kg := 3
         initial_pieces := 20, initial_kg := 40, batch_avg_kg_per_piece := 2
         status := .OPEN, closed_at := none }]
    batch_lines := [⟨1, 1, 10, 20, 2⟩, ⟨2, 1, 5, 10, 2⟩, ⟨3, 1, 20, 40, 2⟩]
    sales := [], adjustments := [], closures := []
    next_batch_id := 4, next_sale_id := 1, now := "T" }

/-- Same shape as `c3Store` (on-hand pieces [10, 5, 20]) for the retail
FIFO claim. -/
def c4Store : Store :=
  { branches := [⟨1, "B"⟩], sizes := [⟨1, "S"⟩]
    batches :=
      [{ id := 1, batch_code := "B1", receipt_date := "2026-01-01", branch_id := 1
         supplier := none, notes := none, buy_price_per_kg := 3
         initial_pieces := 10, initial_kg := 20, batch_avg_kg_per_piece := 2
         status := .OPEN, closed_at := none },
       { id := 2, batch_code := "B2", receipt_date := "2026-01-02", branch_id := 1
         supplier := none, notes := none, buy_price_per_kg := 3
         initial_pieces := 5, initial_kg := 10, batch_avg_kg_per_piece := 2
         status := .OPEN, closed_at := none },
       { id := 3, batch_code := "B3", receipt_date := "2026-01-03", branch_id := 1
         supplier := none, notes := none, buy_price_per_kg := 3
         initial_pieces := 20, initial_kg := 40, batch_avg_kg_per_piece := 2
         status := .OPEN, closed_at := none }]
    batch_lines := [⟨1, 1, 10, 20, 2⟩, ⟨2, 1, 5, 10, 2⟩, ⟨3, 1, 20, 40, 2⟩]
    sales := [], adjustments := [], closures := []
    next_batch_id := 4, next_sale_id := 1, now := "T" }

/-- An OPEN batch with initial 50 pcs / 100 kg, 92 kg sold over 50 pieces,
and a -8 kg stocktake adjustment: exactly depleted. -/
def c5Store : Store :=
  { branches := [⟨1, "B"⟩], sizes := [⟨1, "S"⟩]
    batches := [{ id := 1, batch_code := "B1", receipt_date := "2026-01-01", branch_id := 1
                  supplier := none, notes := none, buy_price_per_kg := 3
                  initial_pieces := 50, initial_kg := 100, batch_avg_kg_per_piece := 2
                  status := .OPEN, closed_at := none }]
    batch_lines := [⟨1, 1, 50, 100, 2⟩]
    sales := [{ id := 1, sale_ts := "T", branch_id := 1, mode := .WHOLESALE_KG, customer := none
                batch_id := 1, size_id := some 1, pcs_sold := 50, kg_sold := 92
                unit_price := none, price_basis := "PER_KG", total_price := none
                pcs_suggested := some 46, variance_flag := 1 }]
    adjustments := [⟨"T", 1, "STOCKTAKE", 0, -8, "count"⟩]
    closures := [], next_batch_id := 2, next_sale_id := 2, now := "T" }

/-- An OPEN batch with on-hand pieces 0 and on-hand kg 0.1 (19.9 of 20 kg
sold over all 10 pieces). -/
def c6Store : Store :=
  { branches := [⟨1, "B"⟩], sizes := [⟨1, "S"⟩]
    batches := [{ id := 1, batch_code := "B1", receipt_date := "2026-01-01", branch_id := 1
                  supplier := none, notes := none, buy_price_per_kg := 3
                  initial_pieces := 10, initial_kg := 20, batch_avg_kg_per_piece := 2
                  status := .OPEN, closed_at := none }]
    batch_lines := [⟨1, 1, 10, 20, 2⟩]
    sales := [{ id := 1, sale_ts := "T", branch_id := 1, mode := .WHOLESALE_KG, customer := none
                batch_id := 1, size_id := some 1, pcs_sold := 10, kg_sold := 199/10
                unit_price := none, price_basis := "PER_KG", total_price := none
                pcs_suggested := some 10, variance_flag := 0 }]
    adjustments := [], closures := [], next_batch_id := 2, next_sale_id := 2, now := "T" }

/-- A batch with sales and adjustments for the on-hand identity, plus a
dangling batch id 9 with no row. -/
def c7Store : Store :=
  { branches := [⟨1, "B"⟩], sizes := [⟨1, "S"⟩]
    batches := [{ id := 1, batch_code := "B1", receipt_date := "2026-01-01", branch_id := 1
                  supplier := none, notes := none, buy_price_per_kg := 3
                  initial_pieces := 10, initial_kg := 20, batch_avg_kg_per_piece := 2
                  status := .OPEN, closed_at := none }]
    batch_lines := [⟨1, 1, 10, 20, 2⟩]
    sales := [{ id := 1, sale_ts := "T", branch_id := 1, mode := .RETAIL_PCS, customer := none
                batch_id := 1, size_id := some 1, pcs_sold := 3, kg_sold := 6
                unit_price := none, price_basis := "PER_KG", total_price := none
                pcs_suggested := none, variance_flag := 0 }]
    adjustments := [⟨"T", 1, "STOCKTAKE", -1, -2, "count"⟩]
    closures := [], next_batch_id := 2, next_sale_id := 2, now := "T" }

/-- Batches listed out of FIFO order in the table: id 3 (2026-01-02), id 2
(2026-01-01), id 1 (2026-01-01, tie on date with id 2), a CLOSED batch, a
depleted batch, and a batch of another branch — only the first three are
candidates, ordered [1, 2, 3]. -/
def c8Store : Store :=
  { branches := [⟨1, "B"⟩, ⟨2, "C"⟩], sizes := [⟨1, "S"⟩]
    batches :=
      [{ id := 3, batch_code := "B3", receipt_date := "2026-01-02", branch_id := 1
         supplier := none, notes := none, buy_price_per_kg := 3
         initial_pieces := 20, initial_kg := 40, batch_avg_kg_per_piece := 2
         status := .OPEN, closed_at := none },
       { id := 2, batch_code := "B2", receipt_date := "2026-01-01", branch_id := 1
         supplier := none, notes := none, buy_price_per_kg := 3
         initial_pieces := 5, initial_kg := 10, batch_avg_kg_per_piece := 2
         status := .OPEN, closed_at := none },
       { id := 1, batch_code := "B1", receipt_date := "2026-01-01", branch_id := 1
         supplier := none, notes := none, buy_price_per_kg := 3
         initial_pieces := 10, initial_kg := 20, batch_avg_kg_per_piece := 2
         status := .OPEN, closed_at := none },
       { id := 4, batch_code := "B4", receipt_date := "2025-12-01", branch_id := 1
         supplier := none, notes := none, buy_price_per_kg := 3
         initial_pieces := 10, initial_kg := 20, batch_avg_kg_per_piece := 2
         status := .CLOSED, closed_at := some "T" },
       { id := 5, batch_code := "B5", receipt_date := "2025-12-02", branch_id := 1
         supplier := none, notes := none, buy_price_per_kg := 3
         initial_pieces := 4, initial_kg := 8, batch_avg_kg_per_piece := 2
         status := .OPEN, closed_at := none },
       { id := 6, batch_code := "B6", receipt_date := "2025-12-03", branch_id := 2
         supplier := none, notes := none, buy_price_per_kg := 3
         initial_pieces := 6, initial_kg := 12, batch_avg_kg_per_piece := 2
         status := .OPEN, closed_at := none }]
    batch_lines := [⟨3, 1, 20, 40, 2⟩, ⟨2, 1, 5, 10, 2⟩, ⟨1, 1, 10, 20, 2⟩,
                    ⟨4, 1, 10, 20, 2⟩, ⟨5, 1, 4, 8, 2⟩, ⟨6, 1, 6, 12, 2⟩]
    sales := [{ id := 1, sale_ts := "T", branch_id := 1, mode := .WHOLESALE_KG, customer := none
                batch_id := 5, size_id := some 1, pcs_sold := 4, kg_sold := 8
                unit_price := none, price_basis := "PER_KG", total_price := none
                pcs_suggested := some 4, variance_flag := 0 }]
    adjustments := [], closures := [], next_batch_id := 7, next_sale_id := 2, now := "T" }

/-- One OPEN batch with `avg_kg_per_piece = 0.5` (50 pcs, 25 kg), matching
the spec example for wholesale variance. -/
def c9Store : Store :=
  { branches := [⟨1, "B"⟩], sizes := [⟨1, "S"⟩]
    batches := [{ id := 1, batch_code := "B1", receipt_date := "2026-01-01", branch_id := 1
                  supplier := none, notes := none, buy_price_per_kg := 3
                  initial_pieces := 50, initial_kg := 25, batch_avg_kg_per_piece := 1/2
                  status := .OPEN, closed_at := none }]
    batch_lines := [⟨1, 1, 50, 25, 1/2⟩]
    sales := [], adjustments := [], closures := []
    next_batch_id := 2, next_sale_id := 1, now := "T" }

/-- A CLOSED batch with only 2 pcs / 4 kg initially: a 5-piece retail sale
still posts and drives on-hand negative. -/
def c10Store : Store :=
  { branches := [⟨1, "B"⟩], sizes := [⟨1, "S"⟩]
    batches := [{ id := 1, batch_code := "B1", receipt_date := "2026-01-01", branch_id := 1
                  supplier := none, notes := none, buy_price_per_kg := 3
                  initial_pieces := 2, initial_kg := 4, batch_avg_kg_per_piece := 2
                  status := .CLOSED, closed_at := some "T" }]
    batch_lines := [⟨1, 1, 2, 4, 2⟩]
    sales := [], adjustments := [], closures := []
    next_batch_id := 2, next_sale_id := 1, now := "T" }

/-! ## Helper lemmas -/

lemma find?_eq_some_of_mem_of_nodup {l : List BatchRow} {b : BatchRow}
    (hb : b ∈ l) (hnd : (l.map (·.id)).Nodup) :
    l.find? (fun x => x.id == b.id) = some b := by
  induction l with
  | nil => cases hb
  | cons a as ih =>
      rw [List.map_cons, List.nodup_cons] at hnd
      rcases List.mem_cons.mp hb with rfl | hb2
      · simp [List.find?_cons]
      · have hne : (a.id == b.id) = false := by
          simp only [beq_eq_false_iff_ne, ne_eq]
          intro he
          exact hnd.1 (he ▸ List.mem_map_of_mem (·.id) hb2)
        rw [List.find?_cons, hne]
        exact ih hb2 hnd.2

lemma get_batch_avg_congr {s1 s2 : Store} (h : s1.batches = s2.batches) (bid : ℤ) :
    get_batch_avg s1 bid = get_batch_avg s2 bid := by
  unfold get_batch_avg
  rw [h]

lemma get_batch_avg_ok_of_find {s : Store} {bid : ℤ} {b : BatchRow}
    (hf : s.batches.find? (fun x => x.id == bid) = some b)
    (hpos : 0 < b.batch_avg_kg_per_piece) :
    get_batch_avg s bid = .ok b.batch_avg_kg_per_piece := by
  unfold get_batch_avg
  rw [hf]
  exact if_neg (not_le.mpr hpos)

lemma find?_map_update {l : List BatchRow} {bid : ℤ} {b : BatchRow}
    (f : BatchRow → BatchRow) (hid : ∀ x, (f x).id = x.id)
    (h : l.find? (fun x => x.id == bid) = some b) :
    (l.map (fun x => if x.id == bid then f x else x)).find? (fun x => x.id == bid)
      = some (f b) := by
  induction l with
  | nil => simp at h
  | cons a as ih =>
      rw [List.find?_cons] at h
      rw [List.map_cons, List.find?_cons]
      by_cases hab : (a.id == bid) = true
      · rw [hab] at h
        rw [if_pos hab]
        have : (f a).id == bid := by rw [hid a]; exact hab
        rw [this]
        injection h with h
        rw [h]
      · rw [Bool.not_eq_true] at hab
        rw [hab] at h
        rw [if_neg (by rw [hab]; exact Bool.false_ne_true), hab]
        exact ih h

lemma mem_fifo_iff {s : Store} {branch_id size_id : ℤ} {c : FifoCandidate} :
    c ∈ fifo_batches_for_size s branch_id size_id ↔
      ∃ b, b ∈ s.batches ∧ b.status = .OPEN ∧ b.branch_id = branch_id ∧
        hasLineForSize s b.id size_id = true ∧
        0 < (batch_line_on_hand s b.id size_id).pcs ∧
        0 < (batch_line_on_hand s b.id size_id).kg ∧
        c = candOf s size_id b := by
  unfold fifo_batches_for_size
  rw [List.mem_filterMap]
  constructor
  · rintro ⟨b, hmem, hg⟩
    rw [List.mem_filter] at hmem
    obtain ⟨hsorted, hcond⟩ := hmem
    have hmem2 : b ∈ s.batches :=
      (List.perm_insertionSort fifoLE s.batches).mem_iff.mp hsorted
    simp only [Bool.and_eq_true, beq_iff_eq] at hcond
    dsimp only at hg
    split at hg
    · rename_i hpos
      exact ⟨b, hmem2, hcond.1.1, hcond.1.2, hcond.2, hpos.1, hpos.2,
        (Option.some_injective _ hg).symm⟩
    · cases hg
  · rintro ⟨b, hmem, hopen, hbr, hline, hpcs, hkg, rfl⟩
    refine ⟨b, ?_, ?_⟩
    · rw [List.mem_filter]
      refine ⟨(List.perm_insertionSort fifoLE s.batches).mem_iff.mpr hmem, ?_⟩
      simp [hopen, hbr, hline]
    · dsimp only
      rw [if_pos ⟨hpcs, hkg⟩]

lemma fifo_pairwise (s : Store) (branch_id size_id : ℤ) :
    (fifo_batches_for_size s branch_id size_id).Pairwise candLE := by
  unfold fifo_batches_for_size
  refine List.Pairwise.filterMap _ ?_
    (((List.sorted_insertionSort fifoLE s.batches).filter _))
  intro a a' hr ca hca ca' hca'
  dsimp only at hca hca'
  have ha : ca = candOf s size_id a := by
    by_cases hc : 0 < (batch_line_on_hand s a.id size_id).pcs ∧
        0 < (batch_line_on_hand s a.id size_id).kg
    · rw [if_pos hc] at hca
      exact (Option.mem_some_iff.mp hca).symm
    · rw [if_neg hc] at hca
      cases hca
  have ha' : ca' = candOf s size_id a' := by
    by_cases hc : 0 < (batch_line_on_hand s a'.id size_id).pcs ∧
        0 < (batch_line_on_hand s a'.id size_id).kg
    · rw [if_pos hc] at hca'
      exact (Option.mem_some_iff.mp hca').symm
    · rw [if_neg hc] at hca'
      cases hca'
  rw [ha, ha']
  exact hr

lemma fifo_pos {s : Store} {branch_id size_id : ℤ} :
    ∀ c ∈ fifo_batches_for_size s branch_id size_id,
      0 < c.pcs_on_hand ∧ 0 < c.kg_on_hand := by
  intro c hc
  obtain ⟨b, _, _, _, _, hpcs, hkg, rfl⟩ := mem_fifo_iff.mp hc
  exact ⟨hpcs, hkg⟩

lemma fifo_avg_ok {s : Store} {branch_id size_id : ℤ}
    (hnd : (s.batches.map (·.id)).Nodup)
    (havg : ∀ b ∈ s.batches, 0 < b.batch_avg_kg_per_piece) :
    ∀ c ∈ fifo_batches_for_size s branch_id size_id,
      get_batch_avg s c.batch_id = .ok c.avg_kg_per_piece := by
  intro c hc
  obtain ⟨b, hmem, _, _, _, _, _, rfl⟩ := mem_fifo_iff.mp hc
  exact get_batch_avg_ok_of_find (find?_eq_some_of_mem_of_nodup hmem hnd) (havg b hmem)

lemma create_retail_sale_ok {s : Store} {branch_id batch_id : ℤ} {size_id : Option ℤ}
    {customer : Option String} {pcs_sold : ℤ} {unit_price : Option ℚ} {pb : String}
    {total_price : Option ℚ} {avg : ℚ}
    (hpos : 0 < pcs_sold) (hpb : normalize_price_basis pb = .ok pb)
    (havg : get_batch_avg s batch_id = .ok avg) :
    create_retail_sale s branch_id batch_id size_id customer pcs_sold unit_price pb total_price
      = ({ s with
            sales := s.sales ++
              [{ id := s.next_sale_id, sale_ts := s.now, branch_id := branch_id
                 mode := .RETAIL_PCS, customer := normalize_customer customer
                 batch_id := batch_id, size_id := size_id, pcs_sold := pcs_sold
                 kg_sold := (pcs_sold : ℚ) * avg, unit_price := unit_price, price_basis := pb
                 total_price :=
                   (match normalize_total_price total_price with
                    | some t => some t
                    | none => compute_total_price unit_price pb ((pcs_sold : ℚ) * avg) pcs_sold)
                 pcs_suggested := none, variance_flag := 0 }]
            next_sale_id := s.next_sale_id + 1 },
         .ok { sale_id := s.next_sale_id, pcs_sold := pcs_sold
               kg_sold := (pcs_sold : ℚ) * avg, variance_flag := 0, pcs_suggested := none }) := by
  unfold create_retail_sale
  rw [if_neg (not_le.mpr hpos), hpb, havg]

lemma retailFifoLoop_ok {branch_id size_id : ℤ} {customer : Option String}
    {unit_price : Option ℚ} {pb : String}
    (hpb : normalize_price_basis pb = .ok pb) :
    ∀ (cands : List FifoCandidate) (s : Store) (remaining : ℤ) (acc : List SaleResult),
      (∀ c ∈ cands, get_batch_avg s c.batch_id = .ok c.avg_kg_per_piece) →
      (∀ c ∈ cands, 0 < c.pcs_on_hand) →
      remaining ≤ (cands.map (·.pcs_on_hand)).sum →
      ∃ s' rs,
        retailFifoLoop branch_id size_id customer unit_price pb s cands remaining acc
          = (s', .ok (acc ++ rs))
        ∧ s'.sales.map saleKey = s.sales.map saleKey ++ retailTakes cands remaining
        ∧ rs.map (fun r => (r.pcs_sold, r.kg_sold))
            = (retailTakes cands remaining).map (fun t => (t.2.1, t.2.2))
        ∧ s'.batches = s.batches := by
  intro cands
  induction cands with
  | nil =>
      intro s remaining acc _ _ hsum
      refine ⟨s, [], ?_, ?_, rfl, rfl⟩
      · rw [List.append_nil, retailFifoLoop,
          if_neg (not_lt.mpr (le_trans hsum (by simp [List.map_nil])))]
      · simp [retailTakes]
  | cons b rest ih =>
      intro s remaining acc havg hpos hsum
      by_cases hrem : remaining ≤ 0
      · refine ⟨s, [], ?_, ?_, ?_, rfl⟩
        · rw [List.append_nil, retailFifoLoop, if_pos hrem]
        · rw [retailTakes, if_pos hrem]
          simp
        · rw [retailTakes, if_pos hrem]
          simp
      · have hrem0 : 0 < remaining := not_le.mp hrem
        have hbpos : 0 < b.pcs_on_hand := hpos b (List.mem_cons_self _ _)
        have htake : 0 < min remaining b.pcs_on_hand := lt_min hrem0 hbpos
        have hsumrest : 0 ≤ (rest.map (·.pcs_on_hand)).sum :=
          List.sum_nonneg (by
            intro x hx
            obtain ⟨c, hc, rfl⟩ := List.mem_map.mp hx
            exact le_of_lt (hpos c (List.mem_cons_of_mem _ hc)))
        have hsum2 : remaining - min remaining b.pcs_on_hand ≤ (rest.map (·.pcs_on_hand)).sum := by
          rw [List.map_cons, List.sum_cons] at hsum
          rcases le_total remaining b.pcs_on_hand with h | h
          · rw [min_eq_left h]
            omega
          · rw [min_eq_right h]
            omega
        obtain ⟨row, hcrs, hrowb, hrowp, hrowk⟩ :
            ∃ row : SaleRow,
              create_retail_sale s branch_id b.batch_id (some size_id) customer
                  (min remaining b.pcs_on_hand) unit_price pb
                  (compute_total_price unit_price pb
                    (((min remaining b.pcs_on_hand : ℤ) : ℚ) * b.avg_kg_per_piece)
                    (min remaining b.pcs_on_hand))
                = ({ s with sales := s.sales ++ [row], next_sale_id := s.next_sale_id + 1 },
                   .ok { sale_id := s.next_sale_id, pcs_sold := min remaining b.pcs_on_hand
                         kg_sold := ((min remaining b.pcs_on_hand : ℤ) : ℚ) * b.avg_kg_per_piece
                         variance_flag := 0, pcs_suggested := none })
              ∧ row.batch_id = b.batch_id
              ∧ row.pcs_sold = min remaining b.pcs_on_hand
              ∧ row.kg_sold = ((min remaining b.pcs_on_hand : ℤ) : ℚ) * b.avg_kg_per_piece :=
          ⟨_, create_retail_sale_ok htake hpb (havg b (List.mem_cons_self _ _)), rfl, rfl, rfl⟩
        obtain ⟨s2, rs2, heq, hsales, hres, hbat⟩ :=
          ih { s with sales := s.sales ++ [row], next_sale_id := s.next_sale_id + 1 }
            (remaining - min remaining b.pcs_on_hand)
            (acc ++ [{ sale_id := s.next_sale_id, pcs_sold := min remaining b.pcs_on_hand
                       kg_sold := ((min remaining b.pcs_on_hand : ℤ) : ℚ) * b.avg_kg_per_piece
                       variance_flag := 0, pcs_suggested := none }])
            (fun c hc =>
              (get_batch_avg_congr rfl c.batch_id).trans
                (havg c (List.mem_cons_of_mem _ hc)))
            (fun c hc => hpos c (List.mem_cons_of_mem _ hc))
            hsum2
        refine ⟨s2,
          { sale_id := s.next_sale_id, pcs_sold := min remaining b.pcs_on_hand
            kg_sold := ((min remaining b.pcs_on_hand : ℤ) : ℚ) * b.avg_kg_per_piece
            variance_flag := 0, pcs_suggested := none } :: rs2, ?_, ?_, ?_, ?_⟩
        · rw [retailFifoLoop, if_neg hrem]
          dsimp only
          rw [if_neg (not_le.mpr htake), hcrs]
          dsimp only
          rw [heq, List.append_assoc]
          rfl
        · rw [hsales]
          dsimp only
          rw [List.map_append, retailTakes, if_neg hrem]
          simp [saleKey, hrowb, hrowp, hrowk, List.append_assoc]
        · rw [List.map_cons, hres, retailTakes, if_neg hrem]
          rfl
        · rw [hbat]


lemma retailFifoLoop_short {branch_id size_id : ℤ} {customer : Option String}
    {unit_price : Option ℚ} {pb : String}
    (hpb : normalize_price_basis pb = .ok pb) :
    ∀ (cands : List FifoCandidate) (s : Store) (remaining : ℤ) (acc : List SaleResult),
      (∀ c ∈ cands, get_batch_avg s c.batch_id = .ok c.avg_kg_per_piece) →
      (∀ c ∈ cands, 0 < c.pcs_on_hand) →
      (cands.map (·.pcs_on_hand)).sum < remaining →
      ∃ s',
        retailFifoLoop branch_id size_id customer unit_price pb s cands remaining acc
          = (s', .error "Not enough pieces on hand across FIFO batches for this size.")
        ∧ s'.sales.map saleKey = s.sales.map saleKey
            ++ cands.map (fun c => (c.batch_id, c.pcs_on_hand, (c.pcs_on_hand : ℚ) * c.avg_kg_per_piece))
        ∧ s'.batches = s.batches := by
  intro cands
  induction cands with
  | nil =>
      intro s remaining acc _ _ hshort
      rw [List.map_nil, List.sum_nil] at hshort
      refine ⟨s, ?_, by simp, rfl⟩
      rw [retailFifoLoop, if_pos hshort]
  | cons b rest ih =>
      intro s remaining acc havg hpos hshort
      rw [List.map_cons, List.sum_cons] at hshort
      have hbpos : 0 < b.pcs_on_hand := hpos b (List.mem_cons_self _ _)
      have hsumrest : 0 ≤ (rest.map (·.pcs_on_hand)).sum :=
        List.sum_nonneg (by
          intro x hx
          obtain ⟨c, hc, rfl⟩ := List.mem_map.mp hx
          exact le_of_lt (hpos c (List.mem_cons_of_mem _ hc)))
      have hrem : ¬ remaining ≤ 0 := by omega
      have hble : b.pcs_on_hand ≤ remaining := by omega
      have hmin : min remaining b.pcs_on_hand = b.pcs_on_hand := min_eq_right hble
      have htake : 0 < min remaining b.pcs_on_hand := by omega
      obtain ⟨row, hcrs, hrowb, hrowp, hrowk⟩ :
          ∃ row : SaleRow,
            create_retail_sale s branch_id b.batch_id (some size_id) customer
                (min remaining b.pcs_on_hand) unit_price pb
                (compute_total_price unit_price pb
                  (((min remaining b.pcs_on_hand : ℤ) : ℚ) * b.avg_kg_per_piece)
                  (min remaining b.pcs_on_hand))
              = ({ s with sales := s.sales ++ [row], next_sale_id := s.next_sale_id + 1 },
                 .ok { sale_id := s.next_sale_id, pcs_sold := min remaining b.pcs_on_hand
                       kg_sold := ((min remaining b.pcs_on_hand : ℤ) : ℚ) * b.avg_kg_per_piece
                       variance_flag := 0, pcs_suggested := none })
            ∧ row.batch_id = b.batch_id
            ∧ row.pcs_sold = min remaining b.pcs_on_hand
            ∧ row.kg_sold = ((min remaining b.pcs_on_hand : ℤ) : ℚ) * b.avg_kg_per_piece :=
        ⟨_, create_retail_sale_ok htake hpb (havg b (List.mem_cons_self _ _)), rfl, rfl, rfl⟩
      obtain ⟨s2, heq, hsales, hbat⟩ :=
        ih { s with sales := s.sales ++ [row], next_sale_id := s.next_sale_id + 1 }
          (remaining - min remaining b.pcs_on_hand)
          (acc ++ [{ sale_id := s.next_sale_id, pcs_sold := min remaining b.pcs_on_hand
                     kg_sold := ((min remaining b.pcs_on_hand : ℤ) : ℚ) * b.avg_kg_per_piece
                     variance_flag := 0, pcs_suggested := none }])
          (fun c hc =>
            (get_batch_avg_congr rfl c.batch_id).trans
              (havg c (List.mem_cons_of_mem _ hc)))
          (fun c hc => hpos c (List.mem_cons_of_mem _ hc))
          (by omega)
      refine ⟨s2, ?_, ?_, ?_⟩
      · rw [retailFifoLoop, if_neg hrem]
        dsimp only
        rw [if_neg (not_le.mpr htake), hcrs]
        dsimp only
        exact heq
      · rw [hsales]
        dsimp only
        rw [List.map_append, List.map_cons]
        simp [saleKey, hrowb, hrowp, hrowk, hmin, List.append_assoc]
      · rw [hbat]
lemma isEmpty_map {α β : Type} (f : α → β) (l : List α) :
    (l.map f).isEmpty = l.isEmpty := by
  cases l <;> rfl

lemma wholesalePieceAlloc_length :
    ∀ (ks : List ℚ) (pcsRem : ℤ) (kgRem : ℚ),
      (wholesalePieceAlloc ks pcsRem kgRem).length = ks.length := by
  intro ks
  induction ks with
  | nil => intro _ _; rfl
  | cons k rest ih =>
      intro pcsRem kgRem
      rw [wholesalePieceAlloc]
      by_cases hre : rest.isEmpty
      · rw [if_pos hre, List.isEmpty_iff.mp hre]
        rfl
      · rw [if_neg hre]
        dsimp only
        rw [List.length_cons, List.length_cons, ih]

lemma wholesalePieceAlloc_sum :
    ∀ (ks : List ℚ) (pcsRem : ℤ) (kgRem : ℚ), ks ≠ [] →
      (wholesalePieceAlloc ks pcsRem kgRem).sum = pcsRem := by
  intro ks
  induction ks with
  | nil => intro _ _ h; exact absurd rfl h
  | cons k rest ih =>
      intro pcsRem kgRem _
      rw [wholesalePieceAlloc]
      by_cases hre : rest.isEmpty
      · rw [if_pos hre]
        simp
      · rw [if_neg hre]
        dsimp only
        rw [List.sum_cons, ih _ _ (fun h => hre (by rw [h]; rfl))]
        ring

lemma wholesalePieceAlloc_pos :
    ∀ (ks : List ℚ) (pcsRem : ℤ) (kgRem : ℚ), (ks.length : ℤ) ≤ pcsRem →
      ∀ x ∈ wholesalePieceAlloc ks pcsRem kgRem, 1 ≤ x := by
  intro ks
  induction ks with
  | nil =>
      intro _ _ _ x hx
      simp [wholesalePieceAlloc] at hx
  | cons k rest ih =>
      intro pcsRem kgRem hlen x hx
      rw [wholesalePieceAlloc] at hx
      by_cases hre : rest.isEmpty
      · rw [if_pos hre] at hx
        rcases List.mem_singleton.mp hx with rfl
        rw [List.length_cons, List.isEmpty_iff.mp hre] at hlen
        simp only [List.length_nil] at hlen
        omega
      · rw [if_neg hre] at hx
        dsimp only at hx
        rw [List.length_cons] at hlen
        rcases List.mem_cons.mp hx with rfl | hx2
        · refine le_min (le_max_left _ _) ?_
          push_cast at hlen ⊢
          omega
        · refine ih _ _ ?_ x hx2
          have : min (max 1 (pyRound (if 0 < kgRem then k / kgRem * (pcsRem : ℚ) else 1)))
              (pcsRem - rest.length) ≤ pcsRem - rest.length := min_le_right _ _
          push_cast at hlen ⊢
          omega

lemma wholesalePostLoop_spec {branch_id size_id : ℤ} {customer : Option String}
    {unit_price : Option ℚ} {pb : String} {tol : ℤ} :
    ∀ (allocs : List (FifoCandidate × ℚ)) (s : Store) (pcsRem : ℤ) (kgRem : ℚ)
      (acc : List SaleResult),
      ∃ s' rs,
        wholesalePostLoop branch_id size_id customer unit_price pb tol s allocs pcsRem kgRem acc
          = (s', acc ++ rs)
        ∧ rs.map (·.pcs_sold) = wholesalePieceAlloc (allocs.map (·.2)) pcsRem kgRem
        ∧ List.Forall₂
            (fun (r : SaleResult) (a : FifoCandidate × ℚ) =>
              r.kg_sold = a.2 ∧
              r.pcs_suggested = some (pyRound (safe_div a.2 a.1.avg_kg_per_piece)) ∧
              r.variance_flag =
                (if tol < |r.pcs_sold - pyRound (safe_div a.2 a.1.avg_kg_per_piece)| then 1 else 0))
            rs allocs
        ∧ s'.sales.map saleKey = s.sales.map saleKey
            ++ (allocs.zip rs).map (fun p => (p.1.1.batch_id, p.2.pcs_sold, p.1.2))
        ∧ s'.batches = s.batches := by
  intro allocs
  induction allocs with
  | nil =>
      intro s pcsRem kgRem acc
      exact ⟨s, [], by rw [List.append_nil]; rfl, rfl, List.Forall₂.nil, by simp, rfl⟩
  | cons a rest ih =>
      intro s pcsRem kgRem acc
      obtain ⟨b, k⟩ := a
      have hstep :
          wholesalePostLoop branch_id size_id customer unit_price pb tol s
              ((b, k) :: rest) pcsRem kgRem acc
            = wholesalePostLoop branch_id size_id customer unit_price pb tol
                { s with
                  sales := s.sales ++
                    [{ id := s.next_sale_id, sale_ts := s.now, branch_id := branch_id
                       mode := .WHOLESALE_KG, customer := normalize_customer customer
                       batch_id := b.batch_id, size_id := some size_id
                       pcs_sold :=
                         (if rest.isEmpty then pcsRem
                          else min (max 1 (pyRound (if 0 < kgRem then k / kgRem * (pcsRem : ℚ) else 1)))
                            (pcsRem - rest.length))
                       kg_sold := k, unit_price := unit_price, price_basis := pb
                       total_price := compute_total_price unit_price pb k
                         (if rest.isEmpty then pcsRem
                          else min (max 1 (pyRound (if 0 < kgRem then k / kgRem * (pcsRem : ℚ) else 1)))
                            (pcsRem - rest.length))
                       pcs_suggested := some (pyRound (safe_div k b.avg_kg_per_piece))
                       variance_flag :=
                         (if tol < |(if rest.isEmpty then pcsRem
                            else min (max 1 (pyRound (if 0 < kgRem then k / kgRem * (pcsRem : ℚ) else 1)))
                              (pcsRem - rest.length)) - pyRound (safe_div k b.avg_kg_per_piece)|
                          then 1 else 0) }]
                  next_sale_id := s.next_sale_id + 1 }
                rest
                (pcsRem -
                  (if rest.isEmpty then pcsRem
                   else min (max 1 (pyRound (if 0 < kgRem then k / kgRem * (pcsRem : ℚ) else 1)))
                     (pcsRem - rest.length)))
                (kgRem - k)
                (acc ++
                  [{ sale_id := s.next_sale_id
                     pcs_sold :=
                       (if rest.isEmpty then pcsRem
                        else min (max 1 (pyRound (if 0 < kgRem then k / kgRem * (pcsRem : ℚ) else 1)))
                          (pcsRem - rest.length))
                     kg_sold := k
                     variance_flag :=
                       (if tol < |(if rest.isEmpty then pcsRem
                          else min (max 1 (pyRound (if 0 < kgRem then k / kgRem * (pcsRem : ℚ) else 1)))
                            (pcsRem - rest.length)) - pyRound (safe_div k b.avg_kg_per_piece)|
                        then 1 else 0)
                     pcs_suggested := some (pyRound (safe_div k b.avg_kg_per_piece)) }]) := by
        rw [wholesalePostLoop]
      obtain ⟨s2, rs2, heq, halloc, hfa, hsales, hbat⟩ := ih _ _ _ _
      refine ⟨s2,
        { sale_id := s.next_sale_id
          pcs_sold :=
            (if rest.isEmpty then pcsRem
             else min (max 1 (pyRound (if 0 < kgRem then k / kgRem * (pcsRem : ℚ) else 1)))
               (pcsRem - rest.length))
          kg_sold := k
          variance_flag :=
            (if tol < |(if rest.isEmpty then pcsRem
               else min (max 1 (pyRound (if 0 < kgRem then k / kgRem * (pcsRem : ℚ) else 1)))
                 (pcsRem - rest.length)) - pyRound (safe_div k b.avg_kg_per_piece)|
             then 1 else 0)
          pcs_suggested := some (pyRound (safe_div k b.avg_kg_per_piece)) } :: rs2,
        ?_, ?_, ?_, ?_, ?_⟩
      · rw [hstep, heq, List.append_assoc]
        rfl
      · rw [List.map_cons, halloc, List.map_cons, wholesalePieceAlloc, isEmpty_map,
          List.length_map]
        by_cases hre : rest.isEmpty
        · rw [if_pos hre, if_pos hre, List.isEmpty_iff.mp hre]
          rfl
        · rw [if_neg hre, if_neg hre]
      · exact List.Forall₂.cons ⟨rfl, rfl, rfl⟩ hfa
      · rw [hsales]
        dsimp only
        rw [List.map_append, List.zip_cons_cons, List.map_cons]
        simp [saleKey, List.append_assoc]
      · rw [hbat]

lemma batch_on_hand_append_adj {s : Store} {batch_id : ℤ} {b : BatchRow} {a : AdjustmentRow}
    (hf : s.batches.find? (fun x => x.id == batch_id) = some b)
    (ha : a.batch_id = batch_id) :
    batch_on_hand { s with adjustments := s.adjustments ++ [a] } batch_id
      = ⟨(batch_on_hand s batch_id).pcs + a.pcs_delta,
         (batch_on_hand s batch_id).kg + a.kg_delta⟩ := by
  unfold batch_on_hand
  rw [hf]
  dsimp only
  have hfa : List.filter (fun r => r.batch_id == batch_id) [a] = [a] := by
    simp [ha]
  refine congrArg₂ OnHand.mk ?_ ?_ <;>
  · rw [List.filter_append, hfa, List.map_append, List.sum_append]
    dsimp only [List.map, List.sum_cons, List.sum_nil]
    ring

lemma eps6_zero_check : ¬ (eps6 < (0 : ℚ)) := by
  norm_num [eps6]

/-! ## Claim theorems -/

/-- Claim C5: for every OPEN, fully depleted batch, `close_batch` returns
and persists `loss_kg = initial_kg - total kg_sold` (not clamped) and
`loss_pct = 100 * loss_kg / initial_kg` (0 when `initial_kg` is 0),
inserts exactly one BatchClosure row, sets the batch CLOSED with a
closing timestamp, and a second `close_batch` fails with the
already-closed `ValidationError`. -/
theorem C5_close_batch_loss_and_terminal {s : Store} {batch_id : ℤ} {b : BatchRow}
    (notes : String) (tol : ℚ)
    (hf : s.batches.find? (fun x => x.id == batch_id) = some b)
    (hopen : b.status = .OPEN)
    (hdep : batch_on_hand s batch_id = ⟨0, 0⟩) :
    ∃ s' out,
      close_batch s batch_id notes tol = (s', .ok out)
      ∧ out.loss_kg
          = b.initial_kg - ((s.sales.filter (fun r => r.batch_id == batch_id)).map (·.kg_sold)).sum
      ∧ out.loss_pct = (if b.initial_kg = 0 then 0 else 100 * out.loss_kg / b.initial_kg)
      ∧ s'.closures = s.closures
          ++ [{ batch_id := batch_id, closed_ts := s.now, loss_kg := out.loss_kg
                loss_pct := out.loss_pct, notes := notes }]
      ∧ s'.batches.find? (fun x => x.id == batch_id)
          = some { b with status := .CLOSED, closed_at := some s.now }
      ∧ s'.sales = s.sales
      ∧ s'.adjustments = s.adjustments
      ∧ (∀ (n2 : String) (t2 : ℚ),
          close_batch s' batch_id n2 t2 = (s', .error "Batch already closed.")) := by
  have hnotclosed : ¬ b.status = .CLOSED := by
    rw [hopen]
    exact fun h => BatchStatus.noConfusion h
  have hfind' :
      ((s.batches.map (fun x => if x.id == batch_id then
          ({ x with status := .CLOSED, closed_at := some s.now } : BatchRow) else x)).find?
        (fun x => x.id == batch_id))
        = some { b with status := .CLOSED, closed_at := some s.now } :=
    find?_map_update (fun x => { x with status := .CLOSED, closed_at := some s.now })
      (fun _ => rfl) hf
  simp only [close_batch, hf, if_neg hnotclosed, hdep, ne_eq, not_true_eq_false, and_false,
    if_false, abs_zero, false_or, if_neg eps6_zero_check]
  refine ⟨_, _, rfl, rfl, ?_, rfl, ?_, rfl, rfl, ?_⟩
  · unfold safe_div
    split
    · simp_all
    · ring
  · exact hfind'
  · intro n2 t2
    simp only [close_batch, hfind']
    rfl

/-- Claim C6: `close_batch` on an OPEN batch with on-hand pieces exactly 0
and |kg| within the tolerance posts exactly one CLOSE_TO_ZERO adjustment
with `pcs_delta 0`, `kg_delta = -on_hand_kg` (kg nonzero) before closing;
every failing call leaves the store untouched; and an OPEN batch that is
neither auto-adjustable nor exactly depleted fails with the not-depleted
`ValidationError`. -/
theorem C6_close_batch_auto_zero {s : Store} {batch_id : ℤ} {b : BatchRow}
    (notes : String) (tol : ℚ)
    (hf : s.batches.find? (fun x => x.id == batch_id) = some b)
    (hopen : b.status = .OPEN) :
    ((batch_on_hand s batch_id).pcs = 0 → (batch_on_hand s batch_id).kg ≠ 0 →
      |(batch_on_hand s batch_id).kg| ≤ tol →
      ∃ s' out,
        close_batch s batch_id notes tol = (s', .ok out)
        ∧ s'.adjustments = s.adjustments
            ++ [{ ts := s.now, batch_id := batch_id, reason := "CLOSE_TO_ZERO"
                  pcs_delta := 0, kg_delta := -(batch_on_hand s batch_id).kg
                  notes := "Auto-adjust to zero for closure within tolerance" }]
        ∧ s'.closures.length = s.closures.length + 1
        ∧ s'.batches.find? (fun x => x.id == batch_id)
            = some { b with status := .CLOSED, closed_at := some s.now })
    ∧ (∀ (e : String) (s1 : Store),
        close_batch s batch_id notes tol = (s1, .error e) → s1 = s)
    ∧ (¬ ((batch_on_hand s batch_id).pcs = 0 ∧ |(batch_on_hand s batch_id).kg| ≤ tol) →
       ((batch_on_hand s batch_id).pcs ≠ 0 ∨ eps6 < |(batch_on_hand s batch_id).kg|) →
       close_batch s batch_id notes tol
         = (s, .error "Batch is not depleted. Bring pieces and kg to zero (sales or adjustment) before closing.")) := by
  have hnotclosed : ¬ b.status = .CLOSED := by
    rw [hopen]
    exact fun h => BatchStatus.noConfusion h
  refine ⟨?_, ?_, ?_⟩
  · intro hpcs hkgne htol
    have hadj := batch_on_hand_append_adj (s := s)
      (a := { ts := s.now, batch_id := batch_id, reason := "CLOSE_TO_ZERO"
              pcs_delta := 0, kg_delta := -(batch_on_hand s batch_id).kg
              notes := "Auto-adjust to zero for closure within tolerance" }) hf rfl
    have hadj0 : batch_on_hand
        { s with adjustments := s.adjustments ++
            [{ ts := s.now, batch_id := batch_id, reason := "CLOSE_TO_ZERO"
               pcs_delta := 0, kg_delta := -(batch_on_hand s batch_id).kg
               notes := "Auto-adjust to zero for closure within tolerance" }] } batch_id
        = ⟨0, 0⟩ := by
      rw [hadj, hpcs]
      norm_num
    have hfind' :
        ((s.batches.map (fun x => if x.id == batch_id then
            ({ x with status := .CLOSED, closed_at := some s.now } : BatchRow) else x)).find?
          (fun x => x.id == batch_id))
          = some { b with status := .CLOSED, closed_at := some s.now } :=
      find?_map_update (fun x => { x with status := .CLOSED, closed_at := some s.now })
        (fun _ => rfl) hf
    have hcondT : |(batch_on_hand s batch_id).kg| ≤ tol ∧
        (batch_on_hand s batch_id).pcs = 0 ∧ (batch_on_hand s batch_id).kg ≠ 0 :=
      ⟨htol, hpcs, hkgne⟩
    simp only [close_batch, hf, if_neg hnotclosed, if_pos hcondT, hadj0,
      ne_eq, not_true_eq_false, and_false, if_false, abs_zero, false_or,
      if_neg eps6_zero_check]
    exact ⟨_, _, rfl, rfl, by simp, hfind'⟩
  · intro e s1 hrun
    simp only [close_batch, hf, if_neg hnotclosed] at hrun
    by_cases hcond : |(batch_on_hand s batch_id).kg| ≤ tol ∧
        (batch_on_hand s batch_id).pcs = 0 ∧ (batch_on_hand s batch_id).kg ≠ 0
    · rw [if_pos hcond] at hrun
      have hadj := batch_on_hand_append_adj (s := s)
        (a := { ts := s.now, batch_id := batch_id, reason := "CLOSE_TO_ZERO"
                pcs_delta := 0, kg_delta := -(batch_on_hand s batch_id).kg
                notes := "Auto-adjust to zero for closure within tolerance" }) hf rfl
      have hadj0 : batch_on_hand
          { s with adjustments := s.adjustments ++
              [{ ts := s.now, batch_id := batch_id, reason := "CLOSE_TO_ZERO"
                 pcs_delta := 0, kg_delta := -(batch_on_hand s batch_id).kg
                 notes := "Auto-adjust to zero for closure within tolerance" }] } batch_id
          = ⟨0, 0⟩ := by
        rw [hadj, hcond.2.1]
        norm_num
      rw [hadj0] at hrun
      simp only [ne_eq, not_true_eq_false, and_false, if_false, abs_zero, false_or,
        if_neg eps6_zero_check] at hrun
      exact absurd (Prod.ext_iff.mp hrun).2 (by simp)
    · rw [if_neg hcond] at hrun
      split at hrun
      · exact (Prod.ext_iff.mp hrun).1.symm
      · exact absurd (Prod.ext_iff.mp hrun).2 (by simp)
  · intro hnadj hndep
    have hnfire : ¬ (|(batch_on_hand s batch_id).kg| ≤ tol ∧
        (batch_on_hand s batch_id).pcs = 0 ∧ (batch_on_hand s batch_id).kg ≠ 0) :=
      fun h => hnadj ⟨h.2.1, h.1⟩
    simp only [close_batch, hf, if_neg hnotclosed, if_neg hnfire]
    rw [if_pos hndep]

theorem C5_witness :
    (close_batch c5Store 1 "done" (1/4)).2 = .ok { loss_kg := 8, loss_pct := 8 }
    ∧ (close_batch (close_batch c5Store 1 "done" (1/4)).1 1 "x" (1/3)).2
        = .error "Batch already closed." := by
  obtain ⟨s', out, heq, hl, hp, _, _, _, _, hre⟩ :=
    @C5_close_batch_loss_and_terminal c5Store 1
      { id := 1, batch_code := "B1", receipt_date := "2026-01-01", branch_id := 1
        supplier := none, notes := none, buy_price_per_kg := 3
        initial_pieces := 50, initial_kg := 100, batch_avg_kg_per_piece := 2
        status := .OPEN, closed_at := none }
      "done" (1/4) (by decide) rfl (by decide)
  have h1 : out.loss_kg = 8 := by
    rw [hl]
    decide
  have hout : out = { loss_kg := 8, loss_pct := 8 } := by
    have h2 : out.loss_pct = 8 := by
      rw [hp, if_neg (by norm_num), h1]
      norm_num
    cases out
    simp_all
  constructor
  · rw [heq, hout]
  · rw [heq]
    rw [show ((s', Except.ok out) : Store × Except String ClosureResult).1 = s' from rfl,
      hre "x" (1/3)]

theorem C6_witness :
    (∃ out, (close_batch c6Store 1 "n" (1/4)).2 = .ok out)
    ∧ (close_batch c6Store 1 "n" (1/4)).1.adjustments.map
        (fun a => (a.reason, a.pcs_delta, a.kg_delta))
        = [("CLOSE_TO_ZERO", (0 : ℤ), -(1/10 : ℚ))]
    ∧ close_batch c6Store 1 "n" (1/20)
        = (c6Store, .error "Batch is not depleted. Bring pieces and kg to zero (sales or adjustment) before closing.") := by
  obtain ⟨hA, _, _⟩ := @C6_close_batch_auto_zero c6Store 1
    { id := 1, batch_code := "B1", receipt_date := "2026-01-01", branch_id := 1
      supplier := none, notes := none, buy_price_per_kg := 3
      initial_pieces := 10, initial_kg := 20, batch_avg_kg_per_piece := 2
      status := .OPEN, closed_at := none }
    "n" (1/4) (by decide) rfl
  obtain ⟨s', out, heq, hadj, _, _⟩ := hA (by decide) (by decide) (by decide)
  obtain ⟨_, _, hC⟩ := @C6_close_batch_auto_zero c6Store 1
    { id := 1, batch_code := "B1", receipt_date := "2026-01-01", branch_id := 1
      supplier := none, notes := none, buy_price_per_kg := 3
      initial_pieces := 10, initial_kg := 20, batch_avg_kg_per_piece := 2
      status := .OPEN, closed_at := none }
    "n" (1/20) (by decide) rfl
  refine ⟨⟨out, by rw [heq]⟩, ?_, ?_⟩
  · rw [heq]
    rw [show ((s', Except.ok out) : Store × Except String ClosureResult).1 = s' from rfl, hadj]
    decide
  · exact hC (by decide) (by decide)

/-- Claim C7: `batch_on_hand` returns initial pieces/kg minus the sums of
the sales of that batch plus the sums of its adjustment deltas; a batch id with
no row yields `{pieces := 0, kg := 0.0}` instead of an error; and
recomputation with no writes in between is identical (the function is
pure in the embedding). -/
theorem C7_batch_on_hand_identity :
    (∀ (s : Store) (bid : ℤ) (b : BatchRow),
      s.batches.find? (fun x => x.id == bid) = some b →
      batch_on_hand s bid
        = ⟨b.initial_pieces
             - ((s.sales.filter (fun r => r.batch_id == bid)).map (·.pcs_sold)).sum
             + ((s.adjustments.filter (fun r => r.batch_id == bid)).map (·.pcs_delta)).sum,
           b.initial_kg
             - ((s.sales.filter (fun r => r.batch_id == bid)).map (·.kg_sold)).sum
             + ((s.adjustments.filter (fun r => r.batch_id == bid)).map (·.kg_delta)).sum⟩)
    ∧ (∀ (s : Store) (bid : ℤ), (∀ b ∈ s.batches, b.id ≠ bid) →
        batch_on_hand s bid = ⟨0, 0⟩)
    ∧ (∀ (s : Store) (bid : ℤ), batch_on_hand s bid = batch_on_hand s bid) := by
  refine ⟨?_, ?_, fun _ _ => rfl⟩
  · intro s bid b hf
    unfold batch_on_hand
    rw [hf]
  · intro s bid hnone
    unfold batch_on_hand
    rw [List.find?_eq_none.mpr (fun x hx => by simp [hnone x hx])]

theorem C7_witness :
    batch_on_hand c7Store 1 = ⟨6, 12⟩ ∧ batch_on_hand c7Store 9 = ⟨0, 0⟩ := by
  obtain ⟨h1, h2, _⟩ := C7_batch_on_hand_identity
  constructor
  · rw [h1 c7Store 1
      { id := 1, batch_code := "B1", receipt_date := "2026-01-01", branch_id := 1
        supplier := none, notes := none, buy_price_per_kg := 3
        initial_pieces := 10, initial_kg := 20, batch_avg_kg_per_piece := 2
        status := .OPEN, closed_at := none } (by decide)]
    decide
  · exact h2 c7Store 9 (by decide)

/-- Claim C8: for every branch and size, the FIFO candidate list contains
exactly the OPEN batches of that branch carrying that size whose
size-level on-hand pieces and kg are both strictly positive, each
annotated with that size-level on-hand, ordered by receipt date ascending
with ties broken by ascending batch id. -/
theorem C8_fifo_candidates (s : Store) (branch_id size_id : ℤ) :
    (∀ c, c ∈ fifo_batches_for_size s branch_id size_id ↔
      ∃ b, b ∈ s.batches ∧ b.status = .OPEN ∧ b.branch_id = branch_id ∧
        hasLineForSize s b.id size_id = true ∧
        0 < (batch_line_on_hand s b.id size_id).pcs ∧
        0 < (batch_line_on_hand s b.id size_id).kg ∧
        c = candOf s size_id b)
    ∧ (fifo_batches_for_size s branch_id size_id).Pairwise candLE :=
  ⟨fun _ => mem_fifo_iff, fifo_pairwise s branch_id size_id⟩

theorem C8_witness :
    (fifo_batches_for_size c8Store 1 1).map
        (fun c => (c.batch_id, c.receipt_date, c.pcs_on_hand, c.kg_on_hand))
      = [(1, "2026-01-01", 10, 20), (2, "2026-01-01", 5, 10), (3, "2026-01-02", 20, 40)] := by
  have hsorted := (C8_fifo_candidates c8Store 1 1).2
  decide

/-- Claim C9: `create_wholesale_sale` posts
`pcs_suggested = round(kg_sold / avg)` and `variance_flag = 1` iff
`|pcs_counted - pcs_suggested|` exceeds the tolerance (negative tolerance
treated as 0), while `create_retail_sale` always posts `variance_flag = 0`
and no `pcs_suggested`. -/
theorem C9_variance_semantics :
    (∀ (s : Store) (branch_id batch_id : ℤ) (size_id : Option ℤ) (customer : Option String)
       (kg_sold : ℚ) (pcs_counted tolerance_pcs : ℤ) (unit_price total_price : Option ℚ)
       (b : BatchRow),
       0 < kg_sold → 0 < pcs_counted →
       s.batches.find? (fun x => x.id == batch_id) = some b →
       0 < b.batch_avg_kg_per_piece →
       ∃ s' r row,
         create_wholesale_sale s branch_id batch_id size_id customer kg_sold pcs_counted
             tolerance_pcs unit_price "PER_KG" total_price = (s', .ok r)
         ∧ r.pcs_suggested = some (pyRound (kg_sold / b.batch_avg_kg_per_piece))
         ∧ r.variance_flag = (if max 0 tolerance_pcs
              < |pcs_counted - pyRound (kg_sold / b.batch_avg_kg_per_piece)| then 1 else 0)
         ∧ s'.sales = s.sales ++ [row]
         ∧ row.mode = .WHOLESALE_KG
         ∧ row.pcs_suggested = r.pcs_suggested
         ∧ row.variance_flag = r.variance_flag)
    ∧ (∀ (s : Store) (branch_id batch_id : ℤ) (size_id : Option ℤ) (customer : Option String)
       (pcs_sold : ℤ) (unit_price total_price : Option ℚ) (b : BatchRow),
       0 < pcs_sold →
       s.batches.find? (fun x => x.id == batch_id) = some b →
       0 < b.batch_avg_kg_per_piece →
       ∃ s' r row,
         create_retail_sale s branch_id batch_id size_id customer pcs_sold unit_price
             "PER_KG" total_price = (s', .ok r)
         ∧ r.variance_flag = 0
         ∧ r.pcs_suggested = none
         ∧ s'.sales = s.sales ++ [row]
         ∧ row.mode = .RETAIL_PCS
         ∧ row.pcs_suggested = none
         ∧ row.variance_flag = 0) := by
  have hpbW : normalize_price_basis "PER_KG" = .ok "PER_KG" := by decide
  constructor
  · intro s branch_id batch_id size_id customer kg_sold pcs_counted tolerance_pcs
      unit_price total_price b hkg hpcs hfind hapos
    have havg := get_batch_avg_ok_of_find hfind hapos
    have hsd : safe_div kg_sold b.batch_avg_kg_per_piece
        = kg_sold / b.batch_avg_kg_per_piece := by
      unfold safe_div
      rw [if_neg (ne_of_gt hapos)]
    simp only [create_wholesale_sale, if_neg (not_le.mpr hkg), if_neg (not_le.mpr hpcs),
      hpbW, havg, hsd]
    exact ⟨_, _, _, rfl, rfl, rfl, rfl, rfl, rfl, rfl⟩
  · intro s branch_id batch_id size_id customer pcs_sold unit_price total_price b
      hpcs hfind hapos
    have havg := get_batch_avg_ok_of_find hfind hapos
    simp only [create_retail_sale, if_neg (not_le.mpr hpcs), hpbW, havg]
    exact ⟨_, _, _, rfl, rfl, rfl, rfl, rfl, rfl, rfl⟩

theorem C9_witness :
    (∃ s' r, create_wholesale_sale c9Store 1 1 (some 1) none 25 50 2 none "PER_KG" none
        = (s', .ok r) ∧ r.pcs_suggested = some 50 ∧ r.variance_flag = 0)
    ∧ (∃ s' r, create_wholesale_sale c9Store 1 1 (some 1) none 25 45 2 none "PER_KG" none
        = (s', .ok r) ∧ r.pcs_suggested = some 50 ∧ r.variance_flag = 1)
    ∧ (∃ s' r, create_retail_sale c9Store 1 1 (some 1) none 7 none "PER_KG" none
        = (s', .ok r) ∧ r.variance_flag = 0 ∧ r.pcs_suggested = none) := by
  have hb : c9Store.batches.find? (fun x => x.id == (1 : ℤ))
      = some { id := 1, batch_code := "B1", receipt_date := "2026-01-01", branch_id := 1
               supplier := none, notes := none, buy_price_per_kg := 3
               initial_pieces := 50, initial_kg := 25, batch_avg_kg_per_piece := 1/2
               status := .OPEN, closed_at := none } := by decide
  obtain ⟨hW, hR⟩ := C9_variance_semantics
  refine ⟨?_, ?_, ?_⟩
  · obtain ⟨s', r, _, heq, hsug, hvar, _⟩ :=
      hW c9Store 1 1 (some 1) none 25 50 2 none none _ (by norm_num) (by decide) hb
        (by norm_num)
    refine ⟨s', r, heq, ?_, ?_⟩
    · rw [hsug]
      decide
    · rw [hvar]
      decide
  · obtain ⟨s', r, _, heq, hsug, hvar, _⟩ :=
      hW c9Store 1 1 (some 1) none 25 45 2 none none _ (by norm_num) (by decide) hb
        (by norm_num)
    refine ⟨s', r, heq, ?_, ?_⟩
    · rw [hsug]
      decide
    · rw [hvar]
      decide
  · obtain ⟨s', r, _, heq, hvar, hsug, _⟩ :=
      hR c9Store 1 1 (some 1) none 7 none none _ (by decide) hb (by norm_num)
    exact ⟨s', r, heq, hvar, hsug⟩

/-- Claim C10 (implicit): the single-batch writers check neither batch
status nor on-hand stock — any batch row with a positive stored average
accepts any positive quantity, even when CLOSED or overselling — and
consequently `batch_on_hand` can go negative in both units. -/
theorem C10_single_batch_writers_unchecked :
    (∀ (s : Store) (branch_id batch_id : ℤ) (size_id : Option ℤ) (customer : Option String)
       (pcs_sold : ℤ) (unit_price total_price : Option ℚ) (b : BatchRow),
       0 < pcs_sold →
       s.batches.find? (fun x => x.id == batch_id) = some b →
       0 < b.batch_avg_kg_per_piece →
       ∃ s' r, create_retail_sale s branch_id batch_id size_id customer pcs_sold unit_price
           "PER_KG" total_price = (s', .ok r))
    ∧ (∀ (s : Store) (branch_id batch_id : ℤ) (size_id : Option ℤ) (customer : Option String)
       (kg_sold : ℚ) (pcs_counted tolerance_pcs : ℤ) (unit_price total_price : Option ℚ)
       (b : BatchRow),
       0 < kg_sold → 0 < pcs_counted →
       s.batches.find? (fun x => x.id == batch_id) = some b →
       0 < b.batch_avg_kg_per_piece →
       ∃ s' r, create_wholesale_sale s branch_id batch_id size_id customer kg_sold pcs_counted
           tolerance_pcs unit_price "PER_KG" total_price = (s', .ok r))
    ∧ ((create_retail_sale c10Store 1 1 (some 1) none 5 none "PER_KG" none).2
         = .ok { sale_id := 1, pcs_sold := 5, kg_sold := 10, variance_flag := 0
                 pcs_suggested := none }
       ∧ batch_on_hand (create_retail_sale c10Store 1 1 (some 1) none 5 none "PER_KG" none).1 1
           = ⟨-3, -6⟩) := by
  have hpbW : normalize_price_basis "PER_KG" = .ok "PER_KG" := by decide
  refine ⟨?_, ?_, by decide, by decide⟩
  · intro s branch_id batch_id size_id customer pcs_sold unit_price total_price b
      hpcs hfind hapos
    have havg := get_batch_avg_ok_of_find hfind hapos
    simp only [create_retail_sale, if_neg (not_le.mpr hpcs), hpbW, havg]
    exact ⟨_, _, rfl⟩
  · intro s branch_id batch_id size_id customer kg_sold pcs_counted tolerance_pcs
      unit_price total_price b hkg hpcs hfind hapos
    have havg := get_batch_avg_ok_of_find hfind hapos
    simp only [create_wholesale_sale, if_neg (not_le.mpr hkg), if_neg (not_le.mpr hpcs),
      hpbW, havg]
    exact ⟨_, _, rfl⟩

theorem C10_witness :
    ∃ s' r, create_retail_sale c10Store 1 1 (some 1) none 5 none "PER_KG" none
      = (s', .ok r) := by
  obtain ⟨hret, _, _⟩ := C10_single_batch_writers_unchecked
  exact hret c10Store 1 1 (some 1) none 5 none none
    { id := 1, batch_code := "B1", receipt_date := "2026-01-01", branch_id := 1
      supplier := none, notes := none, buy_price_per_kg := 3
      initial_pieces := 2, initial_kg := 4, batch_avg_kg_per_piece := 2
      status := .CLOSED, closed_at := some "T" }
    (by decide) (by decide) (by norm_num)

/-- Claim C2 is falsified at its own concrete example: the size code
"SIZE_2" keeps its underscore under strip/upper, so the first purchase for
branch "Nairobi East", size "SIZE_2" on 2026-02-18 is coded
NAIEAS-SIZE_2-20260218-001, not NAIEAS-SIZE2-20260218-001. -/
theorem C2_counterexample :
    (create_batches_from_purchase c2Store "2026-02-18" 1 none none
        [{ size_id := 1, pieces := 10, kg := 25, buy_price_per_kg := some 3 }]).1.batches.map
      (·.batch_code) = ["NAIEAS-SIZE_2-20260218-001"]
    ∧ ("NAIEAS-SIZE_2-20260218-001" : String) ≠ "NAIEAS-SIZE2-20260218-001" :=
  ⟨by decide, by decide⟩

/-- Claim C2 (amended): batch codes are
`{BRANCH_CODE}-{SIZE_CODE}-{YYYYMMDD}-{SEQ:03}` with BRANCH_CODE from the
branch name (first 3 letters of each word capped at 8; single word takes
6), SIZE_CODE the size code upper-cased and trimmed (underscores kept),
YYYYMMDD the date with dashes dropped, and SEQ one more than the number of
stored codes matching the SQL LIKE pattern `stem%` (a `_` in the stem
matches any one character); the Nairobi East / SIZE_2 example yields
NAIEAS-SIZE_2-20260218-001 and then -002 on a same-day repeat. -/
theorem C2_batch_code_generation :
    (∀ (s : Store) (branch_id size_id : ℤ) (receipt_date branch_name size_code : String),
       get_branch_name s branch_id = .ok branch_name →
       get_size_code s size_id = .ok size_code →
       generate_batch_code s branch_id size_id receipt_date
         = .ok (batchCodeStem branch_name size_code receipt_date
             ++ pad3 ((s.batches.filter (fun b =>
                  sqlLikeStem b.batch_code
                    (batchCodeStem branch_name size_code receipt_date))).length + 1)))
    ∧ normalize_branch_code "Nairobi East" = "NAIEAS"
    ∧ normalize_branch_code "Mombasa" = "MOMBAS"
    ∧ ((create_batches_from_purchase
          (create_batches_from_purchase c2Store "2026-02-18" 1 none none
            [{ size_id := 1, pieces := 10, kg := 25, buy_price_per_kg := some 3 }]).1
          "2026-02-18" 1 none none
          [{ size_id := 1, pieces := 10, kg := 25, buy_price_per_kg := some 3 }]).1.batches.map
        (·.batch_code)
        = ["NAIEAS-SIZE_2-20260218-001", "NAIEAS-SIZE_2-20260218-002"]) := by
  refine ⟨?_, by decide, by decide, by decide⟩
  intro s branch_id size_id receipt_date branch_name size_code hbr hsz
  unfold generate_batch_code
  rw [hbr, hsz]

theorem C2_witness :
    generate_batch_code c2Store 1 1 "2026-02-18" = .ok "NAIEAS-SIZE_2-20260218-001" := by
  rw [(C2_batch_code_generation).1 c2Store 1 1 "2026-02-18" "Nairobi East" "SIZE_2"
    (by decide) (by decide)]
  decide

lemma retailTakes_pos :
    ∀ (cands : List FifoCandidate) (remaining : ℤ),
      (∀ c ∈ cands, 0 < c.pcs_on_hand) →
      ∀ t ∈ retailTakes cands remaining, 0 < t.2.1 := by
  intro cands
  induction cands with
  | nil =>
      intro remaining _ t ht
      simp [retailTakes] at ht
  | cons b rest ih =>
      intro remaining hpos t ht
      rw [retailTakes] at ht
      by_cases hrem : remaining ≤ 0
      · rw [if_pos hrem] at ht
        cases ht
      · rw [if_neg hrem] at ht
        dsimp only at ht
        rcases List.mem_cons.mp ht with rfl | ht2
        · exact lt_min (not_le.mp hrem) (hpos b (List.mem_cons_self _ _))
        · exact ih _ (fun c hc => hpos c (List.mem_cons_of_mem _ hc)) t ht2

lemma retailTakes_sum :
    ∀ (cands : List FifoCandidate) (remaining : ℤ),
      0 ≤ remaining →
      (∀ c ∈ cands, 0 < c.pcs_on_hand) →
      remaining ≤ (cands.map (·.pcs_on_hand)).sum →
      ((retailTakes cands remaining).map (fun t => t.2.1)).sum = remaining := by
  intro cands
  induction cands with
  | nil =>
      intro remaining h0 _ hsum
      simp only [List.map_nil, List.sum_nil] at hsum
      rw [le_antisymm hsum h0]
      rfl
  | cons b rest ih =>
      intro remaining h0 hpos hsum
      rw [retailTakes]
      by_cases hrem : remaining ≤ 0
      · rw [if_pos hrem]
        simp [le_antisymm hrem h0]
      · rw [if_neg hrem]
        dsimp only
        rw [List.map_cons, List.sum_cons]
        rw [List.map_cons, List.sum_cons] at hsum
        have hbpos := hpos b (List.mem_cons_self _ _)
        have hsr : 0 ≤ (rest.map (·.pcs_on_hand)).sum :=
          List.sum_nonneg (by
            intro x hx
            obtain ⟨c, hc, rfl⟩ := List.mem_map.mp hx
            exact le_of_lt (hpos c (List.mem_cons_of_mem _ hc)))
        have hml : min remaining b.pcs_on_hand ≤ remaining := min_le_left _ _
        have hbound : remaining - min remaining b.pcs_on_hand
            ≤ (rest.map (·.pcs_on_hand)).sum := by
          rcases le_total remaining b.pcs_on_hand with h | h
          · rw [min_eq_left h]
            omega
          · rw [min_eq_right h]
            omega
        rw [ih _ (by omega) (fun c hc => hpos c (List.mem_cons_of_mem _ hc)) hbound]
        dsimp only
        omega

/-- Claim C4: a satisfiable retail FIFO request posts one sale per batch
used, oldest candidate first, each slice `min(remaining, pcs_on_hand)`
pieces with `pieces * that_batch_avg` kg, never a zero-piece slice,
stopping at zero remainder (the posted pieces sum to the request), over a
candidate list ordered oldest first. -/
theorem C4_retail_fifo_allocation {s : Store} {branch_id size_id : ℤ}
    (customer : Option String) (unit_price : Option ℚ) {pcs_sold : ℤ}
    (hpos : 0 < pcs_sold)
    (hnd : (s.batches.map (·.id)).Nodup)
    (havg : ∀ b ∈ s.batches, 0 < b.batch_avg_kg_per_piece)
    (hcover : pcs_sold ≤ ((fifo_batches_for_size s branch_id size_id).map (·.pcs_on_hand)).sum) :
    ∃ s' rs,
      create_retail_sale_fifo s branch_id size_id customer pcs_sold unit_price "PER_KG"
        = (s', .ok rs)
      ∧ s'.sales.map saleKey = s.sales.map saleKey
          ++ retailTakes (fifo_batches_for_size s branch_id size_id) pcs_sold
      ∧ rs.map (fun r => (r.pcs_sold, r.kg_sold))
          = (retailTakes (fifo_batches_for_size s branch_id size_id) pcs_sold).map
              (fun t => (t.2.1, t.2.2))
      ∧ (∀ r ∈ rs, 0 < r.pcs_sold)
      ∧ (rs.map (·.pcs_sold)).sum = pcs_sold
      ∧ (fifo_batches_for_size s branch_id size_id).Pairwise candLE := by
  have hpbW : normalize_price_basis "PER_KG" = .ok "PER_KG" := by decide
  have hFne : (fifo_batches_for_size s branch_id size_id).isEmpty = false := by
    cases hF : fifo_batches_for_size s branch_id size_id with
    | nil =>
        rw [hF] at hcover
        simp only [List.map_nil, List.sum_nil] at hcover
        omega
    | cons x xs => rfl
  obtain ⟨s', rs, heq, hsales, hres, _⟩ :=
    @retailFifoLoop_ok branch_id size_id customer unit_price "PER_KG" hpbW
      (fifo_batches_for_size s branch_id size_id) s pcs_sold []
      (fifo_avg_ok hnd havg) (fun c hc => (fifo_pos c hc).1) hcover
  refine ⟨s', rs, ?_, hsales, ?_, ?_, ?_, fifo_pairwise s branch_id size_id⟩
  · unfold create_retail_sale_fifo
    rw [if_neg (not_le.mpr hpos), hpbW]
    dsimp only
    rw [hFne, if_neg Bool.false_ne_true]
    exact heq
  · exact hres
  · intro r hr
    have : (r.pcs_sold, r.kg_sold)
        ∈ (retailTakes (fifo_batches_for_size s branch_id size_id) pcs_sold).map
            (fun t => (t.2.1, t.2.2)) := by
      rw [← hres]
      exact List.mem_map_of_mem _ hr
    obtain ⟨t, ht, hteq⟩ := List.mem_map.mp this
    have := retailTakes_pos _ _ (fun c hc => (fifo_pos c hc).1) t ht
    have hfst := congrArg Prod.fst hteq
    dsimp only at hfst
    omega
  · have hmm : rs.map (·.pcs_sold)
        = (retailTakes (fifo_batches_for_size s branch_id size_id) pcs_sold).map
            (fun t => t.2.1) := by
      have := congrArg (List.map Prod.fst) hres
      rwa [List.map_map, List.map_map] at this
    rw [hmm]
    exact retailTakes_sum _ _ (le_of_lt hpos) (fun c hc => (fifo_pos c hc).1) hcover

theorem C4_witness :
    ((retailTakes (fifo_batches_for_size c4Store 1 1) 12).map (fun t => (t.1, t.2.1))
        = [(1, 10), (2, 2)])
    ∧ ∃ s' rs, create_retail_sale_fifo c4Store 1 1 none 12 none "PER_KG" = (s', .ok rs)
        ∧ s'.sales.map saleKey = [(1, 10, 20), (2, 2, 4)]
        ∧ (rs.map (·.pcs_sold)).sum = 12 := by
  obtain ⟨s', rs, heq, hsales, _, _, hsum, _⟩ :=
    @C4_retail_fifo_allocation c4Store 1 1 none none 12
      (by decide) (by decide) (by decide) (by decide)
  refine ⟨by decide, s', rs, heq, ?_, hsum⟩
  rw [hsales]
  decide

/-- Claim C1 is falsified: an insufficient retail FIFO request fails, but
the slices posted before the shortfall is noticed stay committed — the
store is not left as it was. -/
theorem C1_counterexample :
    ((create_retail_sale_fifo c1Store 1 1 none 7 none "PER_KG").2
        = .error "Not enough pieces on hand across FIFO batches for this size.")
    ∧ (create_retail_sale_fifo c1Store 1 1 none 7 none "PER_KG").1 ≠ c1Store
    ∧ (create_retail_sale_fifo c1Store 1 1 none 7 none "PER_KG").1.sales.length = 1 :=
  ⟨by decide, by decide, by decide⟩

/-- Claim C1 (amended): a retail FIFO request exceeding the total on-hand
fails with the insufficient-stock error, but — since every posted slice is
committed before the shortfall is detected — one sale per candidate is
left in the store, each consuming the full on-hand pieces of that candidate. -/
theorem C1_insufficient_fifo_posts_then_fails {s : Store} {branch_id size_id : ℤ}
    (customer : Option String) (unit_price : Option ℚ) {pcs_sold : ℤ}
    (hpos : 0 < pcs_sold)
    (hnd : (s.batches.map (·.id)).Nodup)
    (havg : ∀ b ∈ s.batches, 0 < b.batch_avg_kg_per_piece)
    (hne : fifo_batches_for_size s branch_id size_id ≠ [])
    (hshort : ((fifo_batches_for_size s branch_id size_id).map (·.pcs_on_hand)).sum
        < pcs_sold) :
    ∃ s',
      create_retail_sale_fifo s branch_id size_id customer pcs_sold unit_price "PER_KG"
        = (s', .error "Not enough pieces on hand across FIFO batches for this size.")
      ∧ s'.sales.map saleKey = s.sales.map saleKey
          ++ (fifo_batches_for_size s branch_id size_id).map
              (fun c => (c.batch_id, c.pcs_on_hand, (c.pcs_on_hand : ℚ) * c.avg_kg_per_piece))
      ∧ s'.sales.length
          = s.sales.length + (fifo_batches_for_size s branch_id size_id).length := by
  have hpbW : normalize_price_basis "PER_KG" = .ok "PER_KG" := by decide
  have hFne : (fifo_batches_for_size s branch_id size_id).isEmpty = false := by
    cases hF : fifo_batches_for_size s branch_id size_id with
    | nil => exact absurd hF hne
    | cons x xs => rfl
  obtain ⟨s', heq, hsales, _⟩ :=
    @retailFifoLoop_short branch_id size_id customer unit_price "PER_KG" hpbW
      (fifo_batches_for_size s branch_id size_id) s pcs_sold []
      (fifo_avg_ok hnd havg) (fun c hc => (fifo_pos c hc).1) hshort
  refine ⟨s', ?_, hsales, ?_⟩
  · unfold create_retail_sale_fifo
    rw [if_neg (not_le.mpr hpos), hpbW]
    dsimp only
    rw [hFne, if_neg Bool.false_ne_true]
    exact heq
  · have := congrArg List.length hsales
    simpa using this

theorem C1_witness :
    ∃ s',
      create_retail_sale_fifo c1Store 1 1 none 7 none "PER_KG"
        = (s', .error "Not enough pieces on hand across FIFO batches for this size.")
      ∧ s'.sales.map saleKey = [(1, 5, 10)] := by
  obtain ⟨s', heq, hsales, _⟩ :=
    @C1_insufficient_fifo_posts_then_fails c1Store 1 1 none none 7
      (by decide) (by decide) (by decide) (by decide) (by decide)
  refine ⟨s', heq, ?_⟩
  rw [hsales]
  decide

/-- Claim C3 is falsified at a sub-tolerance request: 1e-9 kg is accepted
(covered trivially by the candidates) yet allocates zero slices, so the
posted pieces sum to 0, not to the counted 5. -/
theorem C3_counterexample :
    create_wholesale_sale_fifo c3Store 1 1 none (1/1000000000) 5 2 none "PER_KG"
      = (c3Store, .ok [])
    ∧ (([] : List SaleResult).map (·.pcs_sold)).sum ≠ (5 : ℤ) :=
  ⟨by decide, by decide⟩

/-- Claim C3 (amended): for wholesale FIFO requests whose kg exceeds the
1e-6 tolerance and is covered by the candidates, a counted-pieces total
below the number of slices fails with `ValidationError` and posts nothing;
otherwise every slice but the last gets its proportional rounded clamped
share, the last the exact remainder, every posted slice carries at least
one piece, the pieces sum to the counted total, and each slice carries its
own suggested count and variance flag. -/
theorem C3_wholesale_fifo_allocation {s : Store} {branch_id size_id : ℤ}
    (customer : Option String) (unit_price : Option ℚ) {kg_sold : ℚ}
    {pcs_counted tolerance_pcs : ℤ}
    (hkg : eps6 < kg_sold) (hpcs : 0 < pcs_counted)
    (hcov : kg_sold
        - ((wholesaleAllocLoop (fifo_batches_for_size s branch_id size_id) kg_sold).map
            (fun a => a.2)).sum ≤ eps6) :
    (pcs_counted
        < ((wholesaleAllocLoop (fifo_batches_for_size s branch_id size_id) kg_sold).length : ℤ) →
      create_wholesale_sale_fifo s branch_id size_id customer kg_sold pcs_counted
          tolerance_pcs unit_price "PER_KG"
        = (s, .error "This sale spans FIFO batches, but counted pieces is fewer. Re-check size selection, stock, or count again."))
    ∧ (((wholesaleAllocLoop (fifo_batches_for_size s branch_id size_id) kg_sold).length : ℤ)
        ≤ pcs_counted →
      ∃ s' rs,
        create_wholesale_sale_fifo s branch_id size_id customer kg_sold pcs_counted
            tolerance_pcs unit_price "PER_KG" = (s', .ok rs)
        ∧ rs.map (·.pcs_sold)
            = wholesalePieceAlloc
                ((wholesaleAllocLoop (fifo_batches_for_size s branch_id size_id) kg_sold).map
                  (fun a => a.2))
                pcs_counted
                (((wholesaleAllocLoop (fifo_batches_for_size s branch_id size_id) kg_sold).map
                  (fun a => a.2)).sum)
        ∧ (∀ r ∈ rs, 1 ≤ r.pcs_sold)
        ∧ (rs.map (·.pcs_sold)).sum = pcs_counted
        ∧ List.Forall₂
            (fun (r : SaleResult) (a : FifoCandidate × ℚ) =>
              r.kg_sold = a.2
              ∧ r.pcs_suggested = some (pyRound (safe_div a.2 a.1.avg_kg_per_piece))
              ∧ r.variance_flag = (if max 0 tolerance_pcs
                  < |r.pcs_sold - pyRound (safe_div a.2 a.1.avg_kg_per_piece)| then 1 else 0))
            rs (wholesaleAllocLoop (fifo_batches_for_size s branch_id size_id) kg_sold)
        ∧ s'.sales.map saleKey = s.sales.map saleKey
            ++ ((wholesaleAllocLoop (fifo_batches_for_size s branch_id size_id) kg_sold).zip
                rs).map (fun p => (p.1.1.batch_id, p.2.pcs_sold, p.1.2))) := by
  have hpbW : normalize_price_basis "PER_KG" = .ok "PER_KG" := by decide
  have heps : (0 : ℚ) < eps6 := by norm_num [eps6]
  have hk0 : 0 < kg_sold := lt_trans heps hkg
  have hAne : wholesaleAllocLoop (fifo_batches_for_size s branch_id size_id) kg_sold ≠ [] := by
    intro hA
    rw [hA] at hcov
    simp only [List.map_nil, List.sum_nil, sub_zero] at hcov
    exact absurd hcov (not_le.mpr hkg)
  have hFne : (fifo_batches_for_size s branch_id size_id).isEmpty = false := by
    cases hF : fifo_batches_for_size s branch_id size_id with
    | nil =>
        exact absurd (by rw [hF]; rfl) hAne
    | cons x xs => rfl
  constructor
  · intro hguard
    unfold create_wholesale_sale_fifo
    rw [if_neg (not_le.mpr hk0), if_neg (not_le.mpr hpcs), hpbW]
    dsimp only
    rw [hFne, if_neg Bool.false_ne_true]
    rw [if_neg (not_lt.mpr hcov), if_pos hguard]
  · intro hguard
    obtain ⟨s', rs, heq, halloc, hfa, hsales, _⟩ :=
      @wholesalePostLoop_spec branch_id size_id customer unit_price "PER_KG"
        (max 0 tolerance_pcs)
        (wholesaleAllocLoop (fifo_batches_for_size s branch_id size_id) kg_sold)
        s pcs_counted
        (((wholesaleAllocLoop (fifo_batches_for_size s branch_id size_id) kg_sold).map
          (fun a => a.2)).sum) []
    refine ⟨s', rs, ?_, halloc, ?_, ?_, hfa, hsales⟩
    · unfold create_wholesale_sale_fifo
      rw [if_neg (not_le.mpr hk0), if_neg (not_le.mpr hpcs), hpbW]
      dsimp only
      rw [hFne, if_neg Bool.false_ne_true]
      rw [if_neg (not_lt.mpr hcov), if_neg (not_lt.mpr hguard), heq]
      rfl
    · intro r hr
      have hmem : r.pcs_sold ∈ rs.map (·.pcs_sold) := List.mem_map_of_mem _ hr
      rw [halloc] at hmem
      refine wholesalePieceAlloc_pos _ pcs_counted _ ?_ _ hmem
      rw [List.length_map]
      exact hguard
    · rw [halloc]
      refine wholesalePieceAlloc_sum _ pcs_counted _ ?_
      intro hmap
      exact hAne (List.map_eq_nil_iff.mp hmap)

theorem C3_witness :
    ∃ s' rs,
      create_wholesale_sale_fifo c3Store 1 1 none 25 13 2 none "PER_KG" = (s', .ok rs)
      ∧ (rs.map (·.pcs_sold)).sum = 13
      ∧ (∀ r ∈ rs, 1 ≤ r.pcs_sold)
      ∧ rs.map (·.pcs_sold) = [10, 3] := by
  obtain ⟨_, h2⟩ :=
    @C3_wholesale_fifo_allocation c3Store 1 1 none none 25 13 2
      (by norm_num [eps6]) (by decide) (by decide)
  obtain ⟨s', rs, heq, halloc, hge, hsum, _, _⟩ := h2 (by decide)
  refine ⟨s', rs, heq, hsum, hge, ?_⟩
  rw [halloc]
  decide

end Fish
